import Mathlib

/-!
# CamUsb: the USB / V4L2 camera-mode controller (`src/cam_usb.cpp`)

A shallow embedding of `camera::CamUsb`.  The controller object is a record of
its member variables; every member function is a state transformer that yields
either a returned value or a raised exception together with the state in which
the call left the object.  The V4L2 configuration object `CamConfig` and the
frame helpers are external: their behaviour is a parameter (`Env`), and what
the clock and the `CamConfig` constructor yield during a call is an argument of
the call, so every theorem holds for all backends.
-/

namespace camera

/-! ## Exceptions and the state-and-exception monad -/

/-- A C++ exception: a `std::runtime_error` (with its `what()` text) or any
exception that is not a `std::runtime_error`. -/
inductive Exn where
  | runtime_error (what : String)
  | other_exception
  deriving DecidableEq, Repr

/-- How a call into an external collaborator ends: a returned value or a
thrown exception. -/
inductive Outcome (α : Type) where
  | ret (a : α)
  | raised (e : Exn)
  deriving DecidableEq, Repr

/-- How a call of a `CamUsb` member function ends: a returned value, a thrown
exception, or the dereference of a null `mCamConfig` (undefined behaviour). -/
inductive Result (α : Type) where
  | ret (a : α)
  | raised (e : Exn)
  | null_dereference
  deriving DecidableEq, Repr

/-- An external call seen from the member function that makes it. -/
def Outcome.toResult {α : Type} : Outcome α → Result α
  | Outcome.ret a => Result.ret a
  | Outcome.raised e => Result.raised e

/-- A member function: from the object state to a result and the new state. -/
def Op (σ α : Type) : Type := σ → Result α × σ

namespace Op

variable {σ α β : Type}

/-- Normal return. -/
def ret (a : α) : Op σ α := fun s => (Result.ret a, s)

/-- Sequencing; when the first part does not return, the second is skipped. -/
def andThen (m : Op σ α) (f : α → Op σ β) : Op σ β := fun s =>
  match m s with
  | (Result.ret a, s1) => f a s1
  | (Result.raised e, s1) => (Result.raised e, s1)
  | (Result.null_dereference, s1) => (Result.null_dereference, s1)

/-- The C++ `throw`. -/
def raise (e : Exn) : Op σ α := fun s => (Result.raised e, s)

/-- Read the object state. -/
def get : Op σ σ := fun s => (Result.ret s, s)

/-- Assign to members. -/
def modify (f : σ → σ) : Op σ Unit := fun s => (Result.ret (), f s)

/-- The C++ `try { m } catch(std::runtime_error& e) { h }`. -/
def catchRuntimeError (m : Op σ α) (h : String → Op σ α) : Op σ α := fun s =>
  match m s with
  | (Result.raised (Exn.runtime_error what), s1) => h what s1
  | r => r

/-- The outcome of an external call that has no access to the object, as a
step of the member function. -/
def ofOutcome (o : Outcome α) : Op σ α := fun s => (o.toResult, s)

end Op

instance (σ : Type) : Monad (Op σ) where
  pure := Op.ret
  bind := Op.andThen

/-! ## Types of the camera interface used by `cam_usb.cpp` -/

/-- The enumeration `CAM_USB_MODE`. -/
inductive CAM_USB_MODE where
  | CAM_USB_NONE
  | CAM_USB_V4L2
  | CAM_USB_GST
  deriving DecidableEq, Repr

/-- The enumeration `GrabMode` of the camera interface; `unlisted` stands for
any other integer cast to the enumeration (the `default:` arm of `grab`). -/
inductive GrabMode where
  | Stop
  | SingleFrame
  | MultiFrame
  | Continuously
  | unlisted (code : Nat)
  deriving DecidableEq, Repr

namespace int_attrib

/-- The integer attributes named in `cam_usb.cpp`; `unlisted` stands for every
other enumerator of `int_attrib::CamAttrib`. -/
inductive CamAttrib where
  | BrightnessValue
  | ContrastValue
  | SaturationValue
  | WhitebalValue
  | SharpnessValue
  | BacklightCompensation
  | ExposureValue
  | unlisted (code : Nat)
  deriving DecidableEq, Repr

end int_attrib

namespace double_attrib

/-- The floating-point attributes named in `cam_usb.cpp`; `unlisted` stands for
every other enumerator of `double_attrib::CamAttrib`. -/
inductive CamAttrib where
  | FrameRate
  | StatFrameRate
  | unlisted (code : Nat)
  deriving DecidableEq, Repr

end double_attrib

namespace enum_attrib

/-- The enumerated attributes named in `cam_usb.cpp`; `unlisted` stands for
every other enumerator of `enum_attrib::CamAttrib`. -/
inductive CamAttrib where
  | WhitebalModeToManual
  | WhitebalModeToAuto
  | GainModeToManual
  | GainModeToAuto
  | PowerLineFrequencyDisabled
  | PowerLineFrequencyTo50
  | PowerLineFrequencyTo60
  | ExposureModeToAuto
  | ExposureModeToManual
  | unlisted (code : Nat)
  deriving DecidableEq, Repr

end enum_attrib

/-- The enumeration `InterfaceType` of `CamInfo`. -/
inductive InterfaceType where
  | InterfaceUnknown
  | InterfaceUSB
  | unlisted (code : Nat)
  deriving DecidableEq, Repr

/-- The members of `CamInfo` that `cam_usb.cpp` reads or writes. -/
structure CamInfo where
  unique_id : Nat
  device : String
  interface_type : InterfaceType
  reachable : Bool
  display_name : String
  deriving DecidableEq, Repr

/-- The pixel modes `base::samples::frame::frame_mode_t` named in
`cam_usb.cpp`; `unlisted` stands for every other enumerator. -/
inductive frame_mode_t where
  | MODE_UNDEFINED
  | MODE_UYVY
  | MODE_JPEG
  | unlisted (code : Nat)
  deriving DecidableEq, Repr

/-- The enumeration `base::samples::frame::frame_status_t`. -/
inductive frame_status_t where
  | STATUS_EMPTY
  | STATUS_VALID
  | STATUS_INVALID
  deriving DecidableEq, Repr

/-- The structure `frame_size_t`: two `uint16_t` members. -/
structure frame_size_t where
  width : Nat
  height : Nat
  deriving DecidableEq, Repr

/-- The caller-owned `base::samples::frame::Frame`. -/
structure Frame where
  time : Nat
  image : List Nat
  size : frame_size_t
  data_depth : Nat
  pixel_size : Nat
  row_size : Nat
  frame_mode : frame_mode_t
  frame_status : frame_status_t
  deriving DecidableEq, Repr

/-- A `float` or `double` value, carried as its IEEE-754 bit pattern; the
embedding performs no arithmetic on it. -/
structure FloatVal where
  bits : Nat
  deriving DecidableEq, Repr

/-! ## Constants of `linux/videodev2.h` used by `cam_usb.cpp` -/

def V4L2_CID_BASE : Nat := 0x00980900
def V4L2_CID_BRIGHTNESS : Nat := V4L2_CID_BASE + 0
def V4L2_CID_CONTRAST : Nat := V4L2_CID_BASE + 1
def V4L2_CID_SATURATION : Nat := V4L2_CID_BASE + 2
def V4L2_CID_AUTO_WHITE_BALANCE : Nat := V4L2_CID_BASE + 12
def V4L2_CID_EXPOSURE : Nat := V4L2_CID_BASE + 17
def V4L2_CID_AUTOGAIN : Nat := V4L2_CID_BASE + 18
def V4L2_CID_POWER_LINE_FREQUENCY : Nat := V4L2_CID_BASE + 24
def V4L2_CID_POWER_LINE_FREQUENCY_DISABLED : Int := 0
def V4L2_CID_POWER_LINE_FREQUENCY_50HZ : Int := 1
def V4L2_CID_POWER_LINE_FREQUENCY_60HZ : Int := 2
def V4L2_CID_WHITE_BALANCE_TEMPERATURE : Nat := V4L2_CID_BASE + 26
def V4L2_CID_SHARPNESS : Nat := V4L2_CID_BASE + 27
def V4L2_CID_BACKLIGHT_COMPENSATION : Nat := V4L2_CID_BASE + 28
def V4L2_CID_CAMERA_CLASS_BASE : Nat := 0x009a0900
def V4L2_CID_EXPOSURE_ABSOLUTE : Nat := V4L2_CID_CAMERA_CLASS_BASE + 2
def V4L2_CID_EXPOSURE_AUTO_PRIORITY : Nat := V4L2_CID_CAMERA_CLASS_BASE + 3
/-- Enumerator of `enum v4l2_exposure_auto_type`. -/
def V4L2_EXPOSURE_AUTO : Nat := 0
/-- Enumerator of `enum v4l2_exposure_auto_type`. -/
def V4L2_EXPOSURE_MANUAL : Nat := 1
def V4L2_CAP_TIMEPERFRAME : Nat := 0x1000

/-! ## The external collaborators -/

/-- Everything `cam_usb.cpp` calls but does not define.  `B` is the state of a
live `CamConfig` object.  Each `CamConfig` method maps the object state to an
outcome and a new object state; a method with an output parameter yields
`some v` when it stores `v` through the pointer and `none` when it leaves the
caller's variable untouched. -/
structure Env (B : Type) where
  /-- The constant `CAM_ID` of `cam_usb.h`. -/
  CAM_ID : Nat
  getCapabilityCard : B → Outcome String × B
  cleanupRequesting : B → Outcome Unit × B
  initRequesting : B → Outcome Unit × B
  /-- Call `getBuffer(buffer, blocking_read, timeout)`: yields the buffer contents after the call. -/
  getBuffer : B → List Nat → Bool → Int → Outcome (List Nat) × B
  writeControlValue : B → Nat → Int → Outcome Unit × B
  writeFPS : B → Nat → Outcome Unit × B
  readFPS : B → Outcome (Option FloatVal) × B
  isControlIdValid : B → Nat → Outcome Bool × B
  isControlIdWritable : B → Nat → Outcome Bool × B
  hasCapabilityStreamparm : B → Nat → Outcome Bool × B
  /-- Call `getControlValue(id, &value)`: the returned flag and the value stored, if any. -/
  getControlValue : B → Nat → Outcome (Bool × Option Int) × B
  getControlName : B → Nat → Outcome (Option String) × B
  getControlMinimum : B → Nat → Outcome (Option Int) × B
  getControlMaximum : B → Nat → Outcome (Option Int) × B
  toV4L2ImageFormat : B → frame_mode_t → Outcome Nat × B
  /-- Call `writeImagePixelFormat(width, height)` (`none`) or
  `writeImagePixelFormat(width, height, format)` (`some format`). -/
  writeImagePixelFormat : B → Nat → Nat → Option Nat → Outcome Unit × B
  getImageWidth : B → Outcome (Option Nat) × B
  getImageHeight : B → Outcome (Option Nat) × B
  setControlValuesToDefault : B → Outcome Unit × B
  listCapabilities : B → Outcome Unit × B
  listControls : B → Outcome Unit × B
  listImageFormat : B → Outcome Unit × B
  listStreamparm : B → Outcome Unit × B
  /-- Call `frame.init(width, height, depth, mode, val, sizeInBytes)` of `base::samples::frame::Frame`. -/
  frameInit : Frame → Nat → Nat → Nat → frame_mode_t → Int → Nat → Outcome Frame
  /-- Call `Helpers::removeJpegCommentBlock(frame)`. -/
  removeJpegCommentBlock : Frame → Outcome Frame
  /-- Call `Helpers::storeImageToFile(image, file_name)`. -/
  storeImageToFile : List Nat → String → Outcome Bool
  /-- The conversion `(uint32_t)value` of a `double`. -/
  doubleToUInt32 : FloatVal → Nat
  /-- The conversion of the `float` member `mFps` to the returned `double`. -/
  floatToDouble : FloatVal → FloatVal
  /-- Modelled from the spec: `CamUsb::calculateFPS()`, declared in `cam_usb.h`
  and not defined in `cam_usb.cpp`; "a locally computed rate derived from
  elapsed time and frame counter".  Arguments: `mStartTimeGrabbing`,
  `mReceivedFrameCounter`, the current time. -/
  calculateFPS : Nat → Nat → Nat → FloatVal

/-! ## The controller object -/

/-- The member variables of `CamUsb`, those inherited from `CamInterface`
(`act_grab_mode_`, `image_size_`, `image_mode_`, `image_color_depth_`)
included.  `mCamConfig = none` is the null pointer.  The `std::map`
`mMapAttrsCtrlsInt` is an association list with unique keys; only `clear`,
`insert` and `find` are used on it. -/
structure CamUsb (B : Type) where
  mCamConfig : Option B
  mDevice : String
  mIsOpen : Bool
  mCamInfo : CamInfo
  mMapAttrsCtrlsInt : List (int_attrib.CamAttrib × Nat)
  mFps : FloatVal
  mBpp : Nat
  mStartTimeGrabbing : Nat
  mReceivedFrameCounter : Nat
  mpCallbackFunction : Option Nat
  mpPassThroughPointer : Option Nat
  mCamMode : CAM_USB_MODE
  act_grab_mode_ : GrabMode
  image_size_ : frame_size_t
  image_mode_ : frame_mode_t
  image_color_depth_ : Nat

/-- The method `std::map::find`. -/
def mapFind (m : List (int_attrib.CamAttrib × Nat)) (k : int_attrib.CamAttrib) : Option Nat :=
  (m.find? (fun p => decide (p.1 = k))).map Prod.snd

/-- The method `std::map::insert`: an existing key keeps its value. -/
def mapInsert (m : List (int_attrib.CamAttrib × Nat)) (k : int_attrib.CamAttrib) (v : Nat) :
    List (int_attrib.CamAttrib × Nat) :=
  match mapFind m k with
  | some _ => m
  | none => m ++ [(k, v)]

variable {B : Type}

/-- A call `mCamConfig->method(...)`: the null pointer cannot be dereferenced. -/
def deref {α : Type} (method : B → Outcome α × B) : Op (CamUsb B) α := fun s =>
  match s.mCamConfig with
  | none => (Result.null_dereference, s)
  | some b => ((method b).1.toResult, { s with mCamConfig := some (method b).2 })

/-- The method `CamUsb::createAttrsCtrlMaps(cam_config)`, called with `cam_config = mCamConfig`. -/
def CamUsb.createAttrsCtrlMaps (env : Env B) : Op (CamUsb B) Unit := do
  Op.modify fun s => { s with mMapAttrsCtrlsInt := [] }
  Op.modify fun s =>
    { s with mMapAttrsCtrlsInt := mapInsert s.mMapAttrsCtrlsInt .BrightnessValue V4L2_CID_BRIGHTNESS }
  Op.modify fun s =>
    { s with mMapAttrsCtrlsInt := mapInsert s.mMapAttrsCtrlsInt .ContrastValue V4L2_CID_CONTRAST }
  Op.modify fun s =>
    { s with mMapAttrsCtrlsInt := mapInsert s.mMapAttrsCtrlsInt .SaturationValue V4L2_CID_SATURATION }
  Op.modify fun s =>
    { s with mMapAttrsCtrlsInt := mapInsert s.mMapAttrsCtrlsInt .WhitebalValue V4L2_CID_WHITE_BALANCE_TEMPERATURE }
  Op.modify fun s =>
    { s with mMapAttrsCtrlsInt := mapInsert s.mMapAttrsCtrlsInt .SharpnessValue V4L2_CID_SHARPNESS }
  Op.modify fun s =>
    { s with mMapAttrsCtrlsInt := mapInsert s.mMapAttrsCtrlsInt .BacklightCompensation V4L2_CID_BACKLIGHT_COMPENSATION }
  let valid ← deref fun b => env.isControlIdValid b V4L2_CID_EXPOSURE_ABSOLUTE
  let valid_exposure_id := if valid then V4L2_CID_EXPOSURE_ABSOLUTE else V4L2_CID_EXPOSURE
  Op.modify fun s =>
    { s with mMapAttrsCtrlsInt := mapInsert s.mMapAttrsCtrlsInt .ExposureValue valid_exposure_id }

/-- The method `CamUsb::changeCameraMode(cam_usb_mode)`.  `created` is the outcome
of `new CamConfig(mDevice)` should the call reach it: the new object, or the
exception its constructor throws (then `mCamConfig` keeps the null assigned
just before and `mCamMode` is not assigned). -/
def CamUsb.changeCameraMode (env : Env B) (created : Outcome B) (cam_usb_mode : CAM_USB_MODE) :
    Op (CamUsb B) Unit := do
  let s ← Op.get
  if cam_usb_mode = s.mCamMode then
    return ()
  if s.mCamConfig.isSome then
    Op.modify fun s => { s with mCamConfig := none }
  match cam_usb_mode with
  | CAM_USB_MODE.CAM_USB_NONE =>
    Op.modify fun s => { s with mCamMode := CAM_USB_MODE.CAM_USB_NONE }
  | CAM_USB_MODE.CAM_USB_V4L2 =>
    let b ← Op.ofOutcome created
    Op.modify fun s => { s with mCamConfig := some b }
    Op.modify fun s => { s with mCamMode := CAM_USB_MODE.CAM_USB_V4L2 }
    CamUsb.createAttrsCtrlMaps env
  | CAM_USB_MODE.CAM_USB_GST =>
    return ()

/-- The enumeration `AccessMode` of the camera interface (ignored by `open`). -/
inductive AccessMode where
  | Monitor
  | Master
  | MasterMulticast
  deriving DecidableEq, Repr

/-- The constructor `CamUsb::CamUsb(device)`.  The initialiser list does not
mention `mCamMode`; `indeterminate` is the value that member holds when
`changeCameraMode(CAM_USB_NONE)` reads it.  The inherited members get the
values the `CamInterface()` constructor assigns (`act_grab_mode_ = Stop`,
an empty image size, `MODE_UNDEFINED`, depth 0). -/
def CamUsb.new (env : Env B) (device : String) (indeterminate : CAM_USB_MODE) : CamUsb B :=
  (CamUsb.changeCameraMode env (Outcome.raised Exn.other_exception) CAM_USB_MODE.CAM_USB_NONE
    { mCamConfig := none
      mDevice := device
      mIsOpen := false
      mCamInfo := ⟨0, "", InterfaceType.InterfaceUnknown, false, ""⟩
      mMapAttrsCtrlsInt := []
      mFps := ⟨0x41200000⟩
      mBpp := 24
      mStartTimeGrabbing := 0
      mReceivedFrameCounter := 0
      mpCallbackFunction := none
      mpPassThroughPointer := none
      mCamMode := indeterminate
      act_grab_mode_ := GrabMode.Stop
      image_size_ := ⟨0, 0⟩
      image_mode_ := frame_mode_t.MODE_UNDEFINED
      image_color_depth_ := 0 }).2

/-- The method `CamUsb::listCameras(cam_infos) const`: the returned count and
the vector after the call.  The loop index is a `uint32_t`, so this is the loop
on a vector of fewer than 2^32 entries. -/
def CamUsb.listCameras (env : Env B) (s : CamUsb B) (cam_infos : List CamInfo) : Int × List CamInfo :=
  if cam_infos.any (fun c => decide (c.unique_id = env.CAM_ID)) then
    (0, cam_infos)
  else
    (1, cam_infos ++ [⟨env.CAM_ID, s.mDevice, InterfaceType.InterfaceUSB, false, ""⟩])

/-- The method `CamUsb::open(cam, mode)`. -/
def CamUsb.open (env : Env B) (created : Outcome B) (cam : CamInfo) (_mode : AccessMode) :
    Op (CamUsb B) Bool := do
  if (← Op.get).mIsOpen then
    return true
  CamUsb.changeCameraMode env created CAM_USB_MODE.CAM_USB_V4L2
  Op.modify fun s => { s with mCamInfo := cam }
  if (← Op.get).mCamConfig.isSome then
    let card ← deref env.getCapabilityCard
    Op.modify fun s => { s with mCamInfo := { s.mCamInfo with display_name := card } }
  Op.modify fun s => { s with mIsOpen := true }
  return true

/-- The method `CamUsb::isOpen() const`. -/
def CamUsb.isOpen (s : CamUsb B) : Bool := s.mIsOpen

/-- The method `CamUsb::getCameraInfo() const`: `none` is the null pointer. -/
def CamUsb.getCameraInfo (s : CamUsb B) : Option CamInfo :=
  if s.mIsOpen then some s.mCamInfo else none

/-- The method `CamUsb::close()`.  On the way to `CAM_USB_NONE` no `CamConfig`
is constructed, so the `created` argument of `changeCameraMode` is not read. -/
def CamUsb.close (env : Env B) : Op (CamUsb B) Bool := do
  if (← Op.get).mIsOpen then
    Op.modify fun s => { s with mIsOpen := false }
    CamUsb.changeCameraMode env (Outcome.raised Exn.other_exception) CAM_USB_MODE.CAM_USB_NONE
  return true

/-- The method `CamUsb::grab(mode, buffer_len)`.  `now` is what `gettimeofday`
stores should the call reach it. -/
def CamUsb.grab (env : Env B) (created : Outcome B) (now : Nat) (mode : GrabMode)
    (_buffer_len : Int) : Op (CamUsb B) Bool := do
  let s ← Op.get
  if s.act_grab_mode_ ≠ GrabMode.Stop ∧ mode ≠ GrabMode.Stop then
    if s.act_grab_mode_ ≠ mode then
      Op.raise (Exn.runtime_error "Stop grabbing before switching the grab mode!")
    else
      return true
  let image_request_started ← (match mode with
    | GrabMode.Stop => do
      if (← Op.get).mCamMode = CAM_USB_MODE.CAM_USB_V4L2 then
        deref env.cleanupRequesting
      CamUsb.changeCameraMode env created CAM_USB_MODE.CAM_USB_V4L2
      Op.modify fun s => { s with act_grab_mode_ := mode }
      pure false
    | GrabMode.SingleFrame => do
      CamUsb.changeCameraMode env created CAM_USB_MODE.CAM_USB_V4L2
      deref env.initRequesting
      pure true
    | GrabMode.MultiFrame => pure false
    | GrabMode.Continuously => pure false
    | GrabMode.unlisted _ =>
      Op.raise (Exn.runtime_error "The grab mode is not supported by the camera!"))
  if image_request_started then
    Op.modify fun s => { s with mStartTimeGrabbing := now }
  return true

/-- The method `CamUsb::retrieveFrame(frame, timeout)`: the outcome, the object
and the caller's frame after the call.  `now` is `base::Time::now()`. -/
def CamUsb.retrieveFrame (env : Env B) (now : Nat) (frame : Frame) (timeout : Int)
    (s : CamUsb B) : Result Bool × CamUsb B × Frame :=
  if s.mCamMode = CAM_USB_MODE.CAM_USB_NONE then
    (Result.ret false, s, frame)
  else
    let requested : Result (Option (List Nat)) × CamUsb B :=
      if s.mCamMode = CAM_USB_MODE.CAM_USB_V4L2 then
        match deref (fun b => env.getBuffer b [] true timeout) s with
        | (Result.ret buffer_tmp, s1) => (Result.ret (some buffer_tmp), s1)
        | (Result.raised (Exn.runtime_error _), s1) => (Result.ret none, s1)
        | (Result.raised e, s1) => (Result.raised e, s1)
        | (Result.null_dereference, s1) => (Result.null_dereference, s1)
      else
        (Result.ret (some []), s)
    match requested with
    | (Result.raised e, s1) => (Result.raised e, s1, frame)
    | (Result.null_dereference, s1) => (Result.null_dereference, s1, frame)
    | (Result.ret none, s1) => (Result.ret false, s1, frame)
    | (Result.ret (some buffer_tmp), s1) =>
      let depth : Nat := if s1.image_mode_ = frame_mode_t.MODE_UYVY then 16 else 8
      match env.frameInit frame s1.image_size_.width s1.image_size_.height depth
          s1.image_mode_ (-1) buffer_tmp.length with
      | Outcome.raised e => (Result.raised e, s1, frame)
      | Outcome.ret frame1 =>
        let frame2 : Frame :=
          { frame1 with image := buffer_tmp, frame_status := frame_status_t.STATUS_VALID, time := now }
        match env.removeJpegCommentBlock frame2 with
        | Outcome.raised e => (Result.raised e, s1, frame2)
        | Outcome.ret frame3 =>
          (Result.ret true,
            { s1 with mReceivedFrameCounter := (s1.mReceivedFrameCounter + 1) % 4294967296 },
            frame3)

/-- The method `CamUsb::storeFrame(frame, file_name)`. -/
def CamUsb.storeFrame (env : Env B) (frame : Frame) (file_name : String) : Outcome Bool :=
  env.storeImageToFile frame.image file_name

/-- The method `CamUsb::isFrameAvailable()`. -/
def CamUsb.isFrameAvailable : Op (CamUsb B) Bool := pure true

/-- The method `CamUsb::skipFrames()`. -/
def CamUsb.skipFrames : Op (CamUsb B) Int := pure 1

/-- The method `CamUsb::setIpSettings(cam, ip_settings) const`. -/
def CamUsb.setIpSettings (_cam : CamInfo) : Op (CamUsb B) Bool :=
  Op.raise (Exn.runtime_error "setIpSettings is not yet implemented for the camera interface!")

/-- The text of the `std::runtime_error` thrown for an attribute that is not known. -/
def unknownAttribute : Exn := Exn.runtime_error "Unknown attribute!"

/-- The conversion of an `int` argument to a `uint32_t` parameter. -/
def toUInt32 (i : Int) : Nat := (i % 4294967296).toNat

/-- The method `CamUsb::setAttrib(int_attrib::CamAttrib attrib, int value)`. -/
def CamUsb.setAttrib_int (env : Env B) (attrib : int_attrib.CamAttrib) (value : Int) :
    Op (CamUsb B) Bool := do
  let s ← Op.get
  if s.mCamMode ≠ CAM_USB_MODE.CAM_USB_V4L2 then
    return false
  match mapFind s.mMapAttrsCtrlsInt attrib with
  | none => Op.raise unknownAttribute
  | some id =>
    Op.catchRuntimeError (deref fun b => env.writeControlValue b id value) (fun _ => pure ())
  return true

/-- The method `CamUsb::setAttrib(double_attrib::CamAttrib attrib, double value)`. -/
def CamUsb.setAttrib_double (env : Env B) (attrib : double_attrib.CamAttrib) (value : FloatVal) :
    Op (CamUsb B) Bool := do
  if (← Op.get).mCamMode ≠ CAM_USB_MODE.CAM_USB_V4L2 then
    return false
  match attrib with
  | double_attrib.CamAttrib.FrameRate | double_attrib.CamAttrib.StatFrameRate =>
    deref fun b => env.writeFPS b (env.doubleToUInt32 value)
    let read ← deref env.readFPS
    let cam_fps_tmp : FloatVal := read.getD ⟨0⟩
    Op.modify fun s => { s with mFps := cam_fps_tmp }
  | double_attrib.CamAttrib.unlisted _ => Op.raise unknownAttribute
  return true

/-- The method `CamUsb::setAttrib(enum_attrib::CamAttrib attrib)`. -/
def CamUsb.setAttrib_enum (env : Env B) (attrib : enum_attrib.CamAttrib) : Op (CamUsb B) Bool := do
  if (← Op.get).mCamMode ≠ CAM_USB_MODE.CAM_USB_V4L2 then
    return false
  match attrib with
  | enum_attrib.CamAttrib.WhitebalModeToManual =>
    deref fun b => env.writeControlValue b V4L2_CID_AUTO_WHITE_BALANCE 0
  | enum_attrib.CamAttrib.WhitebalModeToAuto =>
    deref fun b => env.writeControlValue b V4L2_CID_AUTO_WHITE_BALANCE 1
  | enum_attrib.CamAttrib.GainModeToManual =>
    deref fun b => env.writeControlValue b V4L2_CID_AUTOGAIN 0
  | enum_attrib.CamAttrib.GainModeToAuto =>
    deref fun b => env.writeControlValue b V4L2_CID_AUTOGAIN 1
  | enum_attrib.CamAttrib.PowerLineFrequencyDisabled =>
    deref fun b => env.writeControlValue b V4L2_CID_POWER_LINE_FREQUENCY
      V4L2_CID_POWER_LINE_FREQUENCY_DISABLED
  | enum_attrib.CamAttrib.PowerLineFrequencyTo50 =>
    deref fun b => env.writeControlValue b V4L2_CID_POWER_LINE_FREQUENCY
      V4L2_CID_POWER_LINE_FREQUENCY_50HZ
  | enum_attrib.CamAttrib.PowerLineFrequencyTo60 =>
    deref fun b => env.writeControlValue b V4L2_CID_POWER_LINE_FREQUENCY
      V4L2_CID_POWER_LINE_FREQUENCY_60HZ
  | enum_attrib.CamAttrib.ExposureModeToAuto =>
    let valid ← deref fun b => env.isControlIdValid b V4L2_EXPOSURE_AUTO
    let id := if valid then V4L2_EXPOSURE_AUTO else V4L2_CID_EXPOSURE_AUTO_PRIORITY
    deref fun b => env.writeControlValue b id V4L2_EXPOSURE_AUTO
  | enum_attrib.CamAttrib.ExposureModeToManual =>
    let valid ← deref fun b => env.isControlIdValid b V4L2_EXPOSURE_AUTO
    let id := if valid then V4L2_EXPOSURE_AUTO else V4L2_CID_EXPOSURE_AUTO_PRIORITY
    deref fun b => env.writeControlValue b id V4L2_EXPOSURE_MANUAL
  | enum_attrib.CamAttrib.unlisted _ => Op.raise unknownAttribute
  return true

/-- The method `CamUsb::isAttribAvail(int_attrib::CamAttrib attrib)`. -/
def CamUsb.isAttribAvail_int (env : Env B) (attrib : int_attrib.CamAttrib) : Op (CamUsb B) Bool := do
  let s ← Op.get
  if s.mCamMode ≠ CAM_USB_MODE.CAM_USB_V4L2 then
    return false
  match mapFind s.mMapAttrsCtrlsInt attrib with
  | none => return false
  | some id => deref fun b => env.isControlIdWritable b id

/-- The method `CamUsb::isAttribAvail(double_attrib::CamAttrib attrib)`. -/
def CamUsb.isAttribAvail_double (env : Env B) (attrib : double_attrib.CamAttrib) :
    Op (CamUsb B) Bool := do
  if (← Op.get).mCamMode ≠ CAM_USB_MODE.CAM_USB_V4L2 then
    if attrib = double_attrib.CamAttrib.FrameRate ∨ attrib = double_attrib.CamAttrib.StatFrameRate then
      return true
    else
      return false
  match attrib with
  | double_attrib.CamAttrib.FrameRate | double_attrib.CamAttrib.StatFrameRate =>
    deref fun b => env.hasCapabilityStreamparm b V4L2_CAP_TIMEPERFRAME
  | double_attrib.CamAttrib.unlisted _ => return false

/-- The method `CamUsb::isAttribAvail(enum_attrib::CamAttrib attrib)`. -/
def CamUsb.isAttribAvail_enum (env : Env B) (attrib : enum_attrib.CamAttrib) : Op (CamUsb B) Bool := do
  if (← Op.get).mCamMode ≠ CAM_USB_MODE.CAM_USB_V4L2 then
    return false
  match attrib with
  | enum_attrib.CamAttrib.WhitebalModeToManual | enum_attrib.CamAttrib.WhitebalModeToAuto =>
    deref fun b => env.isControlIdValid b V4L2_CID_AUTO_WHITE_BALANCE
  | enum_attrib.CamAttrib.GainModeToManual | enum_attrib.CamAttrib.GainModeToAuto =>
    deref fun b => env.isControlIdValid b V4L2_CID_AUTOGAIN
  | enum_attrib.CamAttrib.PowerLineFrequencyDisabled | enum_attrib.CamAttrib.PowerLineFrequencyTo50
  | enum_attrib.CamAttrib.PowerLineFrequencyTo60 =>
    deref fun b => env.isControlIdValid b V4L2_CID_POWER_LINE_FREQUENCY
  | enum_attrib.CamAttrib.ExposureModeToAuto | enum_attrib.CamAttrib.ExposureModeToManual =>
    let priority ← deref fun b => env.isControlIdValid b V4L2_CID_EXPOSURE_AUTO_PRIORITY
    if priority then
      return true
    else
      deref fun b => env.isControlIdValid b V4L2_EXPOSURE_AUTO
  | enum_attrib.CamAttrib.unlisted _ => return false

/-- The method `CamUsb::getAttrib(int_attrib::CamAttrib attrib)`. -/
def CamUsb.getAttrib_int (env : Env B) (attrib : int_attrib.CamAttrib) : Op (CamUsb B) Int := do
  let s ← Op.get
  if s.mCamMode ≠ CAM_USB_MODE.CAM_USB_V4L2 then
    Op.raise (Exn.runtime_error "Stop image requesting before getting an int attribute.")
  match mapFind s.mMapAttrsCtrlsInt attrib with
  | none => Op.raise unknownAttribute
  | some id =>
    let read ← deref fun b => env.getControlValue b id
    let value : Int := read.2.getD 0
    return value

/-- The method `CamUsb::getAttrib(double_attrib::CamAttrib attrib)`.  `now` is
the time at which `calculateFPS()` would read the clock. -/
def CamUsb.getAttrib_double (env : Env B) (now : Nat) (attrib : double_attrib.CamAttrib) :
    Op (CamUsb B) FloatVal := do
  let s ← Op.get
  if s.mCamMode ≠ CAM_USB_MODE.CAM_USB_V4L2 then
    if attrib = double_attrib.CamAttrib.FrameRate ∨ attrib = double_attrib.CamAttrib.StatFrameRate then
      return env.calculateFPS s.mStartTimeGrabbing s.mReceivedFrameCounter now
    Op.raise (Exn.runtime_error "Stop image requesting before getting a double attribute.")
  match attrib with
  | double_attrib.CamAttrib.FrameRate | double_attrib.CamAttrib.StatFrameRate =>
    let read ← deref env.readFPS
    Op.modify fun s => { s with mFps := read.getD s.mFps }
    return env.floatToDouble (← Op.get).mFps
  | double_attrib.CamAttrib.unlisted _ => Op.raise unknownAttribute

/-- The method `CamUsb::isAttribSet(enum_attrib::CamAttrib attrib)`. -/
def CamUsb.isAttribSet (env : Env B) (attrib : enum_attrib.CamAttrib) : Op (CamUsb B) Bool := do
  if (← Op.get).mCamMode ≠ CAM_USB_MODE.CAM_USB_V4L2 then
    Op.raise (Exn.runtime_error "Stop image requesting before check whether a enum attribute is set.")
  let value : Int := 0
  match attrib with
  | enum_attrib.CamAttrib.WhitebalModeToManual =>
    let read ← deref fun b => env.getControlValue b V4L2_CID_AUTO_WHITE_BALANCE
    return decide (read.2.getD value = 0)
  | enum_attrib.CamAttrib.WhitebalModeToAuto =>
    let read ← deref fun b => env.getControlValue b V4L2_CID_AUTO_WHITE_BALANCE
    return decide (read.2.getD value = 1)
  | enum_attrib.CamAttrib.GainModeToManual =>
    let read ← deref fun b => env.getControlValue b V4L2_CID_AUTOGAIN
    return decide (read.2.getD value = 0)
  | enum_attrib.CamAttrib.GainModeToAuto =>
    let read ← deref fun b => env.getControlValue b V4L2_CID_AUTOGAIN
    return decide (read.2.getD value = 1)
  | enum_attrib.CamAttrib.PowerLineFrequencyDisabled =>
    let read ← deref fun b => env.getControlValue b V4L2_CID_POWER_LINE_FREQUENCY
    return decide (read.2.getD value = 0)
  | enum_attrib.CamAttrib.PowerLineFrequencyTo50 =>
    let read ← deref fun b => env.getControlValue b V4L2_CID_POWER_LINE_FREQUENCY
    return decide (read.2.getD value = 1)
  | enum_attrib.CamAttrib.PowerLineFrequencyTo60 =>
    let read ← deref fun b => env.getControlValue b V4L2_CID_POWER_LINE_FREQUENCY
    return decide (read.2.getD value = 2)
  | enum_attrib.CamAttrib.ExposureModeToAuto =>
    let first ← deref fun b => env.getControlValue b V4L2_CID_EXPOSURE_AUTO_PRIORITY
    let value1 : Int := first.2.getD value
    if first.1 then
      return decide (value1 = V4L2_EXPOSURE_AUTO)
    else
      let second ← deref fun b => env.getControlValue b V4L2_EXPOSURE_AUTO
      return decide (second.2.getD value1 = V4L2_EXPOSURE_AUTO)
  | enum_attrib.CamAttrib.ExposureModeToManual =>
    let first ← deref fun b => env.getControlValue b V4L2_CID_EXPOSURE_AUTO_PRIORITY
    let value1 : Int := first.2.getD value
    if first.1 then
      return decide (value1 = V4L2_EXPOSURE_MANUAL)
    else
      let second ← deref fun b => env.getControlValue b V4L2_EXPOSURE_AUTO
      return decide (second.2.getD value1 = V4L2_EXPOSURE_MANUAL)
  | enum_attrib.CamAttrib.unlisted _ => Op.raise (Exn.runtime_error "Unknown attribute")

/-- The method `CamUsb::isV4L2AttribAvail(control_id, name)`. -/
def CamUsb.isV4L2AttribAvail (env : Env B) (control_id : Int) (name : String) :
    Op (CamUsb B) Bool := do
  if (← Op.get).mCamMode ≠ CAM_USB_MODE.CAM_USB_V4L2 then
    return false
  let valid ← deref fun b => env.isControlIdValid b (toUInt32 control_id)
  if !valid then
    return false
  if name ≠ "" then
    let read ← deref fun b => env.getControlName b (toUInt32 control_id)
    let control_name : String := read.getD ""
    if control_name ≠ name then
      return false
  return true

/-- The method `CamUsb::getV4L2Attrib(control_id)`. -/
def CamUsb.getV4L2Attrib (env : Env B) (control_id : Int) : Op (CamUsb B) Int := do
  if (← Op.get).mCamMode ≠ CAM_USB_MODE.CAM_USB_V4L2 then
    Op.raise (Exn.runtime_error "Stop image requesting before getting a v4l2 attribute.")
  let read ← deref fun b => env.getControlValue b (toUInt32 control_id)
  let value_tmp : Int := read.2.getD 0
  if !read.1 then
    Op.raise (Exn.runtime_error "Unkown attribute")
  return value_tmp

/-- The method `CamUsb::setV4L2Attrib(control_id, value)`. -/
def CamUsb.setV4L2Attrib (env : Env B) (control_id : Int) (value : Int) : Op (CamUsb B) Bool := do
  if (← Op.get).mCamMode ≠ CAM_USB_MODE.CAM_USB_V4L2 then
    Op.raise (Exn.runtime_error "Stop image requesting before setting a v4l2 attribute.")
  deref fun b => env.writeControlValue b (toUInt32 control_id) value
  return true

/-- The method `CamUsb::setFrameSettings(size, mode, color_depth, resize_frames)`.
The casts `(uint16_t)width` and `(uint16_t)height` keep the low 16 bits of the
`uint32_t` values the backend stored. -/
def CamUsb.setFrameSettings (env : Env B) (size : frame_size_t) (mode : frame_mode_t)
    (color_depth : Nat) (_resize_frames : Bool) : Op (CamUsb B) Bool := do
  if (← Op.get).mCamMode ≠ CAM_USB_MODE.CAM_USB_V4L2 then
    return false
  let v4l2_image_format ← deref fun b => env.toV4L2ImageFormat b mode
  if v4l2_image_format = 0 then
    deref fun b => env.writeImagePixelFormat b size.width size.height none
  else
    deref fun b => env.writeImagePixelFormat b size.width size.height (some v4l2_image_format)
  let readWidth ← deref env.getImageWidth
  let width : Nat := readWidth.getD 0
  let readHeight ← deref env.getImageHeight
  let height : Nat := readHeight.getD 0
  let size_tmp : frame_size_t := ⟨width % 65536, height % 65536⟩
  Op.modify fun s => { s with image_size_ := size_tmp }
  Op.modify fun s => { s with image_mode_ := mode }
  Op.modify fun s => { s with image_color_depth_ := color_depth }
  return true

/-- The method `CamUsb::getFrameSettings(size, mode, color_depth)`: the returned
flag and the three output parameters. -/
def CamUsb.getFrameSettings : Op (CamUsb B) (Bool × frame_size_t × frame_mode_t × Nat) := do
  let s ← Op.get
  return (true, s.image_size_, s.image_mode_, s.image_color_depth_)

/-- The method `CamUsb::triggerFrame()`. -/
def CamUsb.triggerFrame : Op (CamUsb B) Bool := pure true

/-- The method `CamUsb::setToDefault()`. -/
def CamUsb.setToDefault (env : Env B) : Op (CamUsb B) Bool := do
  if (← Op.get).mCamMode ≠ CAM_USB_MODE.CAM_USB_V4L2 then
    return false
  deref env.setControlValuesToDefault
  return true

/-- The method `CamUsb::printCameraInformations()`. -/
def CamUsb.printCameraInformations (env : Env B) : Op (CamUsb B) Bool := do
  if (← Op.get).mCamMode ≠ CAM_USB_MODE.CAM_USB_V4L2 then
    return false
  deref env.listCapabilities
  deref env.listControls
  deref env.listImageFormat
  deref env.listStreamparm
  return true

/-- The method `CamUsb::getRange(attrib, imin, imax)`: the outcome, the object
and the caller's `imin` and `imax` after the call. -/
def CamUsb.getRange (env : Env B) (attrib : int_attrib.CamAttrib) (imin imax : Int)
    (s : CamUsb B) : Result Unit × CamUsb B × Int × Int :=
  if s.mCamMode ≠ CAM_USB_MODE.CAM_USB_V4L2 then
    (Result.ret (), s, imin, imax)
  else
    match mapFind s.mMapAttrsCtrlsInt attrib with
    | none => (Result.ret (), s, imin, imax)
    | some id =>
      match deref (fun b => env.getControlMinimum b id) s with
      | (Result.raised e, s1) => (Result.raised e, s1, imin, imax)
      | (Result.null_dereference, s1) => (Result.null_dereference, s1, imin, imax)
      | (Result.ret readMin, s1) =>
        let min : Int := readMin.getD 0
        match deref (fun b => env.getControlMaximum b id) s1 with
        | (Result.raised e, s2) => (Result.raised e, s2, min, imax)
        | (Result.null_dereference, s2) => (Result.null_dereference, s2, min, imax)
        | (Result.ret readMax, s2) =>
          let max : Int := readMax.getD 0
          (Result.ret (), s2, min, max)

/-- The method `CamUsb::getFileDescriptor() const`. -/
def CamUsb.getFileDescriptor (_s : CamUsb B) : Int := -1

/-- The method `CamUsb::fastInit(width, height)`. -/
def CamUsb.fastInit (env : Env B) (created : Outcome B) (width height : Int) :
    Op (CamUsb B) Unit := do
  let cam_infos := (CamUsb.listCameras env (← Op.get) []).2
  let _ ← CamUsb.open env created (cam_infos.headD ⟨0, "", InterfaceType.InterfaceUnknown, false, ""⟩)
    AccessMode.Master
  let size : frame_size_t := ⟨(width % 65536).toNat, (height % 65536).toNat⟩
  let _ ← CamUsb.setFrameSettings env size frame_mode_t.MODE_JPEG 3 true
  return ()

/-! ## Sequences of public calls -/

/-- A call of a public member function that can change the object, with its
arguments and with the inputs the environment supplies during the call. -/
inductive Call (B : Type) where
  | openCamera (created : Outcome B) (cam : CamInfo) (mode : AccessMode)
  | close
  | grab (created : Outcome B) (now : Nat) (mode : GrabMode) (buffer_len : Int)
  | retrieveFrame (now : Nat) (frame : Frame) (timeout : Int)
  | isFrameAvailable
  | skipFrames
  | setIpSettings (cam : CamInfo)
  | setAttrib_int (attrib : int_attrib.CamAttrib) (value : Int)
  | setAttrib_double (attrib : double_attrib.CamAttrib) (value : FloatVal)
  | setAttrib_enum (attrib : enum_attrib.CamAttrib)
  | isAttribAvail_int (attrib : int_attrib.CamAttrib)
  | isAttribAvail_double (attrib : double_attrib.CamAttrib)
  | isAttribAvail_enum (attrib : enum_attrib.CamAttrib)
  | getAttrib_int (attrib : int_attrib.CamAttrib)
  | getAttrib_double (now : Nat) (attrib : double_attrib.CamAttrib)
  | isAttribSet (attrib : enum_attrib.CamAttrib)
  | isV4L2AttribAvail (control_id : Int) (name : String)
  | getV4L2Attrib (control_id : Int)
  | setV4L2Attrib (control_id : Int) (value : Int)
  | setFrameSettings (size : frame_size_t) (mode : frame_mode_t) (color_depth : Nat)
      (resize_frames : Bool)
  | getFrameSettings
  | triggerFrame
  | setToDefault
  | printCameraInformations
  | getRange (attrib : int_attrib.CamAttrib) (imin imax : Int)
  | fastInit (created : Outcome B) (width height : Int)

/-- How a call ended, without the returned value. -/
inductive Ending where
  | returned
  | raised (e : Exn)
  | null_dereference
  deriving DecidableEq, Repr

/-- Forget the returned value. -/
def Result.ending {α : Type} : Result α → Ending
  | Result.ret _ => Ending.returned
  | Result.raised e => Ending.raised e
  | Result.null_dereference => Ending.null_dereference

/-- Run a member function: how it ended and the object after it. -/
def Op.run {σ α : Type} (m : Op σ α) (s : σ) : Ending × σ := ((m s).1.ending, (m s).2)

/-- Execute one public call on the object. -/
def exec (env : Env B) : Call B → CamUsb B → Ending × CamUsb B
  | Call.openCamera created cam mode, s => (CamUsb.open env created cam mode).run s
  | Call.close, s => (CamUsb.close env).run s
  | Call.grab created now mode buffer_len, s => (CamUsb.grab env created now mode buffer_len).run s
  | Call.retrieveFrame now frame timeout, s =>
    ((CamUsb.retrieveFrame env now frame timeout s).1.ending,
      (CamUsb.retrieveFrame env now frame timeout s).2.1)
  | Call.isFrameAvailable, s => CamUsb.isFrameAvailable.run s
  | Call.skipFrames, s => CamUsb.skipFrames.run s
  | Call.setIpSettings cam, s => (CamUsb.setIpSettings cam).run s
  | Call.setAttrib_int attrib value, s => (CamUsb.setAttrib_int env attrib value).run s
  | Call.setAttrib_double attrib value, s => (CamUsb.setAttrib_double env attrib value).run s
  | Call.setAttrib_enum attrib, s => (CamUsb.setAttrib_enum env attrib).run s
  | Call.isAttribAvail_int attrib, s => (CamUsb.isAttribAvail_int env attrib).run s
  | Call.isAttribAvail_double attrib, s => (CamUsb.isAttribAvail_double env attrib).run s
  | Call.isAttribAvail_enum attrib, s => (CamUsb.isAttribAvail_enum env attrib).run s
  | Call.getAttrib_int attrib, s => (CamUsb.getAttrib_int env attrib).run s
  | Call.getAttrib_double now attrib, s => (CamUsb.getAttrib_double env now attrib).run s
  | Call.isAttribSet attrib, s => (CamUsb.isAttribSet env attrib).run s
  | Call.isV4L2AttribAvail control_id name, s => (CamUsb.isV4L2AttribAvail env control_id name).run s
  | Call.getV4L2Attrib control_id, s => (CamUsb.getV4L2Attrib env control_id).run s
  | Call.setV4L2Attrib control_id value, s => (CamUsb.setV4L2Attrib env control_id value).run s
  | Call.setFrameSettings size mode color_depth resize_frames, s =>
    (CamUsb.setFrameSettings env size mode color_depth resize_frames).run s
  | Call.getFrameSettings, s => CamUsb.getFrameSettings.run s
  | Call.triggerFrame, s => CamUsb.triggerFrame.run s
  | Call.setToDefault, s => (CamUsb.setToDefault env).run s
  | Call.printCameraInformations, s => (CamUsb.printCameraInformations env).run s
  | Call.getRange attrib imin imax, s =>
    ((CamUsb.getRange env attrib imin imax s).1.ending, (CamUsb.getRange env attrib imin imax s).2.1)
  | Call.fastInit created width height, s => (CamUsb.fastInit env created width height).run s

/-- The states of the object reachable from a freshly constructed controller by
public calls; a call that throws leaves a reachable state too. -/
inductive Reachable (env : Env B) : CamUsb B → Prop where
  | fresh (device : String) (indeterminate : CAM_USB_MODE) :
    Reachable env (CamUsb.new env device indeterminate)
  | step (c : Call B) {s : CamUsb B} (h : Reachable env s) : Reachable env (exec env c s).2

/-! ## A concrete backend for evaluating the code -/

/-- A backend with no state whose every method returns at once: no control is
valid, reads store nothing, and the negotiated image is `width` by `height`. -/
def idleEnv (width height : Nat) : Env Unit where
  CAM_ID := 0
  getCapabilityCard := fun b => (Outcome.ret "card", b)
  cleanupRequesting := fun b => (Outcome.ret (), b)
  initRequesting := fun b => (Outcome.ret (), b)
  getBuffer := fun b _ _ _ => (Outcome.ret [], b)
  writeControlValue := fun b _ _ => (Outcome.ret (), b)
  writeFPS := fun b _ => (Outcome.ret (), b)
  readFPS := fun b => (Outcome.ret none, b)
  isControlIdValid := fun b _ => (Outcome.ret false, b)
  isControlIdWritable := fun b _ => (Outcome.ret false, b)
  hasCapabilityStreamparm := fun b _ => (Outcome.ret false, b)
  getControlValue := fun b _ => (Outcome.ret (false, none), b)
  getControlName := fun b _ => (Outcome.ret none, b)
  getControlMinimum := fun b _ => (Outcome.ret none, b)
  getControlMaximum := fun b _ => (Outcome.ret none, b)
  toV4L2ImageFormat := fun b _ => (Outcome.ret 0, b)
  writeImagePixelFormat := fun b _ _ _ => (Outcome.ret (), b)
  getImageWidth := fun b => (Outcome.ret (some width), b)
  getImageHeight := fun b => (Outcome.ret (some height), b)
  setControlValuesToDefault := fun b => (Outcome.ret (), b)
  listCapabilities := fun b => (Outcome.ret (), b)
  listControls := fun b => (Outcome.ret (), b)
  listImageFormat := fun b => (Outcome.ret (), b)
  listStreamparm := fun b => (Outcome.ret (), b)
  frameInit := fun f _ _ _ _ _ _ => Outcome.ret f
  removeJpegCommentBlock := fun f => Outcome.ret f
  storeImageToFile := fun _ _ => Outcome.ret true
  doubleToUInt32 := fun _ => 0
  floatToDouble := fun v => v
  calculateFPS := fun _ _ _ => ⟨0⟩

/-- The camera description passed to `open` in the examples. -/
def demoInfo : CamInfo := ⟨0, "/dev/video0", InterfaceType.InterfaceUSB, false, ""⟩

/-- A freshly constructed controller on the idle backend. -/
def freshCam : CamUsb Unit :=
  CamUsb.new (idleEnv 640 480) "/dev/video0" CAM_USB_MODE.CAM_USB_GST

/-- The controller after `open()` on the idle backend. -/
def openedCam : CamUsb Unit :=
  (exec (idleEnv 640 480) (Call.openCamera (Outcome.ret ()) demoInfo AccessMode.Master) freshCam).2

/-- The controller after `open()` followed by `close()` on the idle backend. -/
def reclosedCam : CamUsb Unit :=
  (exec (idleEnv 640 480) Call.close openedCam).2

/-- The controller after `grab(SingleFrame)` on a fresh controller, idle backend. -/
def singleGrabbedCam : CamUsb Unit :=
  (CamUsb.grab (idleEnv 640 480) (Outcome.ret ()) 1 GrabMode.SingleFrame 1 freshCam).2

/-- The controller after `open()` on an idle backend that negotiates a
66176 by 480 image (66176 = 65536 + 640). -/
def openedWideCam : CamUsb Unit :=
  (CamUsb.open (idleEnv 66176 480) (Outcome.ret ()) demoInfo AccessMode.Master
    (CamUsb.new (idleEnv 66176 480) "/dev/video0" CAM_USB_MODE.CAM_USB_GST)).2

/-- An empty frame owned by the caller. -/
def blankFrame : Frame :=
  ⟨0, [], ⟨0, 0⟩, 0, 0, 0, frame_mode_t.MODE_UNDEFINED, frame_status_t.STATUS_EMPTY⟩

/-- The idle backend, except that every control reports the range -64 .. 64. -/
def rangeEnv : Env Unit :=
  { idleEnv 640 480 with
    getControlMinimum := fun b _ => (Outcome.ret (some (-64)), b)
    getControlMaximum := fun b _ => (Outcome.ret (some 64), b) }

/-- The controller after `open()` on the backend that reports ranges. -/
def openedRangeCam : CamUsb Unit :=
  (exec rangeEnv (Call.openCamera (Outcome.ret ()) demoInfo AccessMode.Master)
    (CamUsb.new rangeEnv "/dev/video0" CAM_USB_MODE.CAM_USB_GST)).2

/-- The controller after `grab(Stop)` on a fresh controller, idle backend. -/
def stoppedCam : CamUsb Unit :=
  (CamUsb.grab (idleEnv 640 480) (Outcome.ret ()) 1 GrabMode.Stop 1 freshCam).2

/-- Modelled from the spec: the state of a backend that is "a store of control
values": the ids of the valid controls and the writes made so far, the latest
first. -/
structure ControlStore where
  valid : List Nat
  written : List (Nat × Int)
  deriving DecidableEq, Repr

/-- Modelled from the spec: the value a read of control `id` yields, "the last
written value" (0 for a control never written). -/
def ControlStore.value (b : ControlStore) (id : Nat) : Int := (b.written.lookup id).getD 0

/-- Modelled from the spec: the backend in which "a write to a valid control id
succeeds and a later read of that id returns the last written value".  A write
to an id that is not valid throws, a read of it returns false and stores
nothing; every other method returns at once. -/
def storeEnv : Env ControlStore where
  CAM_ID := 0
  getCapabilityCard := fun b => (Outcome.ret "card", b)
  cleanupRequesting := fun b => (Outcome.ret (), b)
  initRequesting := fun b => (Outcome.ret (), b)
  getBuffer := fun b _ _ _ => (Outcome.ret [], b)
  writeControlValue := fun b id v =>
    if id ∈ b.valid then (Outcome.ret (), { b with written := (id, v) :: b.written })
    else (Outcome.raised (Exn.runtime_error "control id is not valid"), b)
  writeFPS := fun b _ => (Outcome.ret (), b)
  readFPS := fun b => (Outcome.ret none, b)
  isControlIdValid := fun b id => (Outcome.ret (decide (id ∈ b.valid)), b)
  isControlIdWritable := fun b id => (Outcome.ret (decide (id ∈ b.valid)), b)
  hasCapabilityStreamparm := fun b _ => (Outcome.ret false, b)
  getControlValue := fun b id =>
    if id ∈ b.valid then (Outcome.ret (true, some (b.value id)), b)
    else (Outcome.ret (false, none), b)
  getControlName := fun b _ => (Outcome.ret none, b)
  getControlMinimum := fun b _ => (Outcome.ret none, b)
  getControlMaximum := fun b _ => (Outcome.ret none, b)
  toV4L2ImageFormat := fun b _ => (Outcome.ret 0, b)
  writeImagePixelFormat := fun b _ _ _ => (Outcome.ret (), b)
  getImageWidth := fun b => (Outcome.ret none, b)
  getImageHeight := fun b => (Outcome.ret none, b)
  setControlValuesToDefault := fun b => (Outcome.ret (), b)
  listCapabilities := fun b => (Outcome.ret (), b)
  listControls := fun b => (Outcome.ret (), b)
  listImageFormat := fun b => (Outcome.ret (), b)
  listStreamparm := fun b => (Outcome.ret (), b)
  frameInit := fun f _ _ _ _ _ _ => Outcome.ret f
  removeJpegCommentBlock := fun f => Outcome.ret f
  storeImageToFile := fun _ _ => Outcome.ret true
  doubleToUInt32 := fun _ => 0
  floatToDouble := fun v => v
  calculateFPS := fun _ _ _ => ⟨0⟩

/-- The controller after `open()` on a store backend in which both candidate
exposure control ids, `V4L2_EXPOSURE_AUTO` and `V4L2_CID_EXPOSURE_AUTO_PRIORITY`,
are valid and nothing has been written. -/
def exposureCam : CamUsb ControlStore :=
  (CamUsb.open storeEnv (Outcome.ret ⟨[V4L2_EXPOSURE_AUTO, V4L2_CID_EXPOSURE_AUTO_PRIORITY], []⟩)
    demoInfo AccessMode.Master (CamUsb.new storeEnv "/dev/video0" CAM_USB_MODE.CAM_USB_GST)).2

/-- The controller after `open()` on a store backend whose only valid control
is `V4L2_CID_AUTO_WHITE_BALANCE`. -/
def whitebalCam : CamUsb ControlStore :=
  (CamUsb.open storeEnv (Outcome.ret ⟨[V4L2_CID_AUTO_WHITE_BALANCE], []⟩)
    demoInfo AccessMode.Master (CamUsb.new storeEnv "/dev/video0" CAM_USB_MODE.CAM_USB_GST)).2

/-- The idle backend, except that `cleanupRequesting` throws. -/
def failingCleanupEnv : Env Unit :=
  { idleEnv 640 480 with
    cleanupRequesting := fun b => (Outcome.raised (Exn.runtime_error "VIDIOC_STREAMOFF"), b) }

/-- The controller after `grab(Stop)` on a fresh controller of the backend
whose `cleanupRequesting` throws. -/
def stoppedOnFailingCleanupCam : CamUsb Unit :=
  (CamUsb.grab failingCleanupEnv (Outcome.ret ()) 1 GrabMode.Stop 1
    (CamUsb.new failingCleanupEnv "/dev/video0" CAM_USB_MODE.CAM_USB_GST)).2

/-! ## Reasoning about member functions -/

section
variable {σ α β : Type}

/-- The postcondition `Q` holds of the result and final state of `m` run from `s`. -/
def Op.wp (m : Op σ α) (Q : Result α → σ → Prop) (s : σ) : Prop := Q (m s).1 (m s).2

/-- Postcondition of the first part of a sequence: on a normal return the rest
(`k`) runs, otherwise the result is that of the whole. -/
def Op.after (Q : Result β → σ → Prop) (k : α → σ → Prop) : Result α → σ → Prop
  | Result.ret a, s => k a s
  | Result.raised e, s => Q (Result.raised e) s
  | Result.null_dereference, s => Q Result.null_dereference s

/-- Postcondition of the body of a `try` block whose handler catches `std::runtime_error`. -/
def Op.caught (Q : Result α → σ → Prop) (k : String → σ → Prop) : Result α → σ → Prop
  | Result.raised (Exn.runtime_error what), s => k what s
  | r, s => Q r s

end

/-- The members no accessor assigns: the mode, whether a backend is held, the
attribute map and the active grab mode. -/
def Core (s s1 : CamUsb B) : Prop :=
  s1.mCamMode = s.mCamMode ∧ s1.mCamConfig.isSome = s.mCamConfig.isSome ∧
    s1.mMapAttrsCtrlsInt = s.mMapAttrsCtrlsInt ∧ s1.act_grab_mode_ = s.act_grab_mode_

/-- The backend handle is non-null exactly in mode `CAM_USB_V4L2`. -/
def BackendLive (s : CamUsb B) : Prop :=
  s.mCamConfig.isSome = true ↔ s.mCamMode = CAM_USB_MODE.CAM_USB_V4L2

/-- A member function that, run on an object satisfying `BackendLive`, keeps
the core members and dereferences no null backend. -/
def Quiet {α : Type} (m : Op (CamUsb B) α) : Prop :=
  ∀ s : CamUsb B, BackendLive s →
    Op.wp m (fun r s1 => Core s s1 ∧ r ≠ Result.null_dereference) s

/-- In mode `CAM_USB_V4L2` the attribute map has entries. -/
def MapReady (s : CamUsb B) : Prop :=
  s.mCamMode = CAM_USB_MODE.CAM_USB_V4L2 → s.mMapAttrsCtrlsInt ≠ []

/-- The active grab mode is `Stop`: no arm of `grab` assigns another value. -/
def NotGrabbing (s : CamUsb B) : Prop := s.act_grab_mode_ = GrabMode.Stop

/-- The invariant of the controller. -/
def Inv (s : CamUsb B) : Prop := BackendLive s ∧ MapReady s ∧ NotGrabbing s

/-- A member function that, run on an object satisfying the invariant, keeps
the invariant and dereferences no null backend. -/
def Sound {α : Type} (m : Op (CamUsb B) α) : Prop :=
  ∀ s : CamUsb B, Inv s → Op.wp m (fun r s1 => Inv s1 ∧ r ≠ Result.null_dereference) s

/-! ## Theorems -/

section
variable {σ α β : Type}

@[simp] theorem Op.pure_apply (a : α) (s : σ) : (pure a : Op σ α) s = (Result.ret a, s) := rfl

@[simp] theorem Op.bind_apply (m : Op σ α) (f : α → Op σ β) (s : σ) :
    (m >>= f) s = Op.andThen m f s := rfl

@[simp] theorem Op.get_apply (s : σ) : (Op.get : Op σ σ) s = (Result.ret s, s) := rfl

@[simp] theorem Op.modify_apply (f : σ → σ) (s : σ) : Op.modify f s = (Result.ret (), f s) := rfl

@[simp] theorem Op.raise_apply (e : Exn) (s : σ) :
    (Op.raise e : Op σ α) s = (Result.raised e, s) := rfl

@[simp] theorem Op.ofOutcome_apply (o : Outcome α) (s : σ) :
    (Op.ofOutcome o : Op σ α) s = (o.toResult, s) := rfl

@[simp] theorem Op.after_ret (Q : Result β → σ → Prop) (k : α → σ → Prop) (a : α) (s : σ) :
    Op.after Q k (Result.ret a) s = k a s := rfl

@[simp] theorem Op.after_raised (Q : Result β → σ → Prop) (k : α → σ → Prop) (e : Exn) (s : σ) :
    Op.after Q k (Result.raised e) s = Q (Result.raised e) s := rfl

@[simp] theorem Op.after_null (Q : Result β → σ → Prop) (k : α → σ → Prop) (s : σ) :
    Op.after Q k (Result.null_dereference : Result α) s = Q Result.null_dereference s := rfl

@[simp] theorem Outcome.toResult_ne_null (o : Outcome α) :
    (o.toResult = Result.null_dereference) = False := by
  cases o <;> simp [Outcome.toResult]

theorem Op.after_toResult (Q : Result β → σ → Prop) (k : α → σ → Prop) (o : Outcome α) (s : σ) :
    Op.after Q k o.toResult s =
      match o with
      | Outcome.ret a => k a s
      | Outcome.raised e => Q (Result.raised e) s := by
  cases o <;> rfl

theorem Op.caught_toResult (Q : Result α → σ → Prop) (k : String → σ → Prop) (o : Outcome α) (s : σ) :
    Op.caught Q k o.toResult s =
      match o with
      | Outcome.ret a => Q (Result.ret a) s
      | Outcome.raised (Exn.runtime_error what) => k what s
      | Outcome.raised Exn.other_exception => Q (Result.raised Exn.other_exception) s := by
  rcases o with a | e
  · rfl
  · cases e <;> rfl

@[simp] theorem Op.caught_null (Q : Result α → σ → Prop) (k : String → σ → Prop) (s : σ) :
    Op.caught Q k Result.null_dereference s = Q Result.null_dereference s := rfl

@[simp] theorem Op.wp_pure (a : α) (Q : Result α → σ → Prop) (s : σ) :
    Op.wp (pure a) Q s = Q (Result.ret a) s := rfl

@[simp] theorem Op.wp_bind (m : Op σ α) (f : α → Op σ β) (Q : Result β → σ → Prop) (s : σ) :
    Op.wp (m >>= f) Q s = Op.wp m (Op.after Q fun a => Op.wp (f a) Q) s := by
  show Op.wp (Op.andThen m f) Q s = _
  unfold Op.wp Op.andThen
  rcases h : m s with ⟨r, s1⟩
  cases r <;> rfl

@[simp] theorem Op.wp_get (Q : Result σ → σ → Prop) (s : σ) :
    Op.wp Op.get Q s = Q (Result.ret s) s := rfl

@[simp] theorem Op.wp_modify (f : σ → σ) (Q : Result Unit → σ → Prop) (s : σ) :
    Op.wp (Op.modify f) Q s = Q (Result.ret ()) (f s) := rfl

@[simp] theorem Op.wp_raise (e : Exn) (Q : Result α → σ → Prop) (s : σ) :
    Op.wp (Op.raise e) Q s = Q (Result.raised e) s := rfl

@[simp] theorem Op.wp_ofOutcome (o : Outcome α) (Q : Result α → σ → Prop) (s : σ) :
    Op.wp (Op.ofOutcome o) Q s = Q o.toResult s := rfl

@[simp] theorem Op.wp_ite (c : Prop) [Decidable c] (a b : Op σ α) (Q : Result α → σ → Prop)
    (s : σ) : Op.wp (if c then a else b) Q s = if c then Op.wp a Q s else Op.wp b Q s := by
  split <;> rfl

@[simp] theorem Op.wp_catchRuntimeError (m : Op σ α) (h : String → Op σ α)
    (Q : Result α → σ → Prop) (s : σ) :
    Op.wp (Op.catchRuntimeError m h) Q s = Op.wp m (Op.caught Q fun what => Op.wp (h what) Q) s := by
  unfold Op.wp Op.catchRuntimeError
  rcases hm : m s with ⟨r, s1⟩
  rcases r with a | e | _
  · rfl
  · cases e <;> rfl
  · rfl

theorem Op.wp_of_forall (m : Op σ α) (Q : Result α → σ → Prop) (s : σ)
    (h : ∀ r s1, Q r s1) : Op.wp m Q s :=
  h _ _

theorem Op.wp_mono (m : Op σ α) (Q Q1 : Result α → σ → Prop) (s : σ) (h : Op.wp m Q s)
    (himp : ∀ r s1, Q r s1 → Q1 r s1) : Op.wp m Q1 s :=
  himp _ _ h

end

@[simp] theorem wp_deref {α : Type} (method : B → Outcome α × B)
    (Q : Result α → CamUsb B → Prop) (s : CamUsb B) :
    Op.wp (deref method) Q s =
      match s.mCamConfig with
      | none => Q Result.null_dereference s
      | some b => Q (method b).1.toResult { s with mCamConfig := some (method b).2 } := by
  unfold Op.wp deref
  cases s.mCamConfig <;> rfl

theorem setAttrib_int_quiet (env : Env B) (attrib : int_attrib.CamAttrib) (value : Int) :
    Quiet (CamUsb.setAttrib_int env attrib value) := by
  intro s hinv
  unfold CamUsb.setAttrib_int Core
  simp
  intro hmode
  obtain ⟨b, hb⟩ := Option.isSome_iff_exists.mp (hinv.mpr hmode)
  simp [hb, Op.after_toResult, Op.caught_toResult]
  repeat' (split <;> try simp_all [Op.after_toResult, Op.caught_toResult])

theorem setAttrib_double_quiet (env : Env B) (attrib : double_attrib.CamAttrib) (value : FloatVal) :
    Quiet (CamUsb.setAttrib_double env attrib value) := by
  intro s hinv
  unfold CamUsb.setAttrib_double Core
  simp
  intro hmode
  obtain ⟨b, hb⟩ := Option.isSome_iff_exists.mp (hinv.mpr hmode)
  simp [hb, Op.after_toResult, Op.caught_toResult]
  repeat' (split <;> try simp_all [Op.after_toResult, Op.caught_toResult])

theorem setAttrib_enum_quiet (env : Env B) (attrib : enum_attrib.CamAttrib) :
    Quiet (CamUsb.setAttrib_enum env attrib) := by
  intro s hinv
  unfold CamUsb.setAttrib_enum Core
  simp
  intro hmode
  obtain ⟨b, hb⟩ := Option.isSome_iff_exists.mp (hinv.mpr hmode)
  simp [hb, Op.after_toResult, Op.caught_toResult]
  repeat' (split <;> try simp_all [Op.after_toResult, Op.caught_toResult])

theorem isAttribAvail_int_quiet (env : Env B) (attrib : int_attrib.CamAttrib) :
    Quiet (CamUsb.isAttribAvail_int env attrib) := by
  intro s hinv
  unfold CamUsb.isAttribAvail_int Core
  simp
  intro hmode
  obtain ⟨b, hb⟩ := Option.isSome_iff_exists.mp (hinv.mpr hmode)
  simp [hb, Op.after_toResult, Op.caught_toResult]
  repeat' (split <;> try simp_all [Op.after_toResult, Op.caught_toResult])

theorem isAttribAvail_double_quiet (env : Env B) (attrib : double_attrib.CamAttrib) :
    Quiet (CamUsb.isAttribAvail_double env attrib) := by
  intro s hinv
  unfold CamUsb.isAttribAvail_double Core
  simp
  intro hmode
  obtain ⟨b, hb⟩ := Option.isSome_iff_exists.mp (hinv.mpr hmode)
  simp [hb, Op.after_toResult, Op.caught_toResult]
  repeat' (split <;> try simp_all [Op.after_toResult, Op.caught_toResult])

theorem isAttribAvail_enum_quiet (env : Env B) (attrib : enum_attrib.CamAttrib) :
    Quiet (CamUsb.isAttribAvail_enum env attrib) := by
  intro s hinv
  unfold CamUsb.isAttribAvail_enum Core
  simp
  intro hmode
  obtain ⟨b, hb⟩ := Option.isSome_iff_exists.mp (hinv.mpr hmode)
  simp [hb, Op.after_toResult, Op.caught_toResult]
  repeat' (split <;> try simp_all [Op.after_toResult, Op.caught_toResult])

theorem getAttrib_int_quiet (env : Env B) (attrib : int_attrib.CamAttrib) :
    Quiet (CamUsb.getAttrib_int env attrib) := by
  intro s hinv
  unfold CamUsb.getAttrib_int Core
  simp
  intro hmode
  obtain ⟨b, hb⟩ := Option.isSome_iff_exists.mp (hinv.mpr hmode)
  simp [hb, Op.after_toResult, Op.caught_toResult]
  repeat' (split <;> try simp_all [Op.after_toResult, Op.caught_toResult])

theorem getAttrib_double_quiet (env : Env B) (now : Nat) (attrib : double_attrib.CamAttrib) :
    Quiet (CamUsb.getAttrib_double env now attrib) := by
  intro s hinv
  unfold CamUsb.getAttrib_double Core
  simp
  intro hmode
  obtain ⟨b, hb⟩ := Option.isSome_iff_exists.mp (hinv.mpr hmode)
  simp [hb, Op.after_toResult, Op.caught_toResult]
  repeat' (split <;> try simp_all [Op.after_toResult, Op.caught_toResult])

theorem isAttribSet_quiet (env : Env B) (attrib : enum_attrib.CamAttrib) :
    Quiet (CamUsb.isAttribSet env attrib) := by
  intro s hinv
  unfold CamUsb.isAttribSet Core
  simp
  intro hmode
  obtain ⟨b, hb⟩ := Option.isSome_iff_exists.mp (hinv.mpr hmode)
  simp [hb, Op.after_toResult, Op.caught_toResult]
  repeat' (split <;> try simp_all [Op.after_toResult, Op.caught_toResult])

theorem isV4L2AttribAvail_quiet (env : Env B) (control_id : Int) (name : String) :
    Quiet (CamUsb.isV4L2AttribAvail env control_id name) := by
  intro s hinv
  unfold CamUsb.isV4L2AttribAvail Core
  simp
  intro hmode
  obtain ⟨b, hb⟩ := Option.isSome_iff_exists.mp (hinv.mpr hmode)
  simp [hb, Op.after_toResult, Op.caught_toResult]
  repeat' (split <;> try simp_all [Op.after_toResult, Op.caught_toResult])

theorem getV4L2Attrib_quiet (env : Env B) (control_id : Int) :
    Quiet (CamUsb.getV4L2Attrib env control_id) := by
  intro s hinv
  unfold CamUsb.getV4L2Attrib Core
  simp
  intro hmode
  obtain ⟨b, hb⟩ := Option.isSome_iff_exists.mp (hinv.mpr hmode)
  simp [hb, Op.after_toResult, Op.caught_toResult]
  repeat' (split <;> try simp_all [Op.after_toResult, Op.caught_toResult])

theorem setV4L2Attrib_quiet (env : Env B) (control_id value : Int) :
    Quiet (CamUsb.setV4L2Attrib env control_id value) := by
  intro s hinv
  unfold CamUsb.setV4L2Attrib Core
  simp
  intro hmode
  obtain ⟨b, hb⟩ := Option.isSome_iff_exists.mp (hinv.mpr hmode)
  simp [hb, Op.after_toResult, Op.caught_toResult]
  repeat' (split <;> try simp_all [Op.after_toResult, Op.caught_toResult])

theorem setFrameSettings_quiet (env : Env B) (size : frame_size_t) (mode : frame_mode_t) (color_depth : Nat)
    (resize_frames : Bool) :
    Quiet (CamUsb.setFrameSettings env size mode color_depth resize_frames) := by
  intro s hinv
  unfold CamUsb.setFrameSettings Core
  simp
  intro hmode
  obtain ⟨b, hb⟩ := Option.isSome_iff_exists.mp (hinv.mpr hmode)
  simp [hb, Op.after_toResult, Op.caught_toResult]
  repeat' (split <;> try simp_all [Op.after_toResult, Op.caught_toResult])

theorem setToDefault_quiet (env : Env B) :
    Quiet (CamUsb.setToDefault env) := by
  intro s hinv
  unfold CamUsb.setToDefault Core
  simp
  intro hmode
  obtain ⟨b, hb⟩ := Option.isSome_iff_exists.mp (hinv.mpr hmode)
  simp [hb, Op.after_toResult, Op.caught_toResult]
  repeat' (split <;> try simp_all [Op.after_toResult, Op.caught_toResult])

theorem printCameraInformations_quiet (env : Env B) :
    Quiet (CamUsb.printCameraInformations env) := by
  intro s hinv
  unfold CamUsb.printCameraInformations Core
  simp
  intro hmode
  obtain ⟨b, hb⟩ := Option.isSome_iff_exists.mp (hinv.mpr hmode)
  simp [hb, Op.after_toResult, Op.caught_toResult]
  repeat' (split <;> try simp_all [Op.after_toResult, Op.caught_toResult])

theorem mapInsert_ne_nil (m : List (int_attrib.CamAttrib × Nat)) (k : int_attrib.CamAttrib)
    (v : Nat) : mapInsert m k v ≠ [] := by
  unfold mapInsert
  cases h : mapFind m k with
  | none => simp
  | some w =>
    cases m with
    | nil => simp [mapFind] at h
    | cons p ps => simp

theorem Core.inv {s s1 : CamUsb B} (h : Core s s1) (hs : Inv s) : Inv s1 := by
  obtain ⟨hm, hc, hmap, hg⟩ := h
  unfold Inv BackendLive MapReady NotGrabbing at *
  rw [hm, hc, hmap, hg]
  exact hs

theorem Quiet.sound {α : Type} {m : Op (CamUsb B) α} (h : Quiet m) : Sound m := by
  intro s hs
  exact Op.wp_mono m _ _ s (h s hs.1) (fun r s1 hq => ⟨hq.1.inv hs, hq.2⟩)

theorem changeCameraMode_spec (env : Env B) (created : Outcome B) (mode : CAM_USB_MODE)
    (hmode : mode ≠ CAM_USB_MODE.CAM_USB_GST) (s : CamUsb B) (hs : Inv s) :
    Op.wp (CamUsb.changeCameraMode env created mode)
      (fun r s1 => Inv s1 ∧ r ≠ Result.null_dereference ∧ (r = Result.ret () → s1.mCamMode = mode))
      s := by
  unfold CamUsb.changeCameraMode CamUsb.createAttrsCtrlMaps
  unfold Inv BackendLive MapReady NotGrabbing at *
  simp [Op.after_toResult, mapInsert_ne_nil]
  repeat' (split <;> try simp_all [Op.after_toResult, mapInsert_ne_nil])

theorem open_sound (env : Env B) (created : Outcome B) (cam : CamInfo) (mode : AccessMode) :
    Sound (CamUsb.open env created cam mode) := by
  intro s hs
  unfold CamUsb.open
  simp
  split
  · exact hs
  · refine Op.wp_mono _ _ _ s (changeCameraMode_spec env created _ (by decide) s hs) ?_
    rintro r s1 ⟨h1, hr, -⟩
    cases r with
    | ret a =>
      unfold Inv BackendLive MapReady NotGrabbing at *
      simp [Op.after_toResult]
      repeat' (split <;> try simp_all [Op.after_toResult])
    | raised e => simp [h1]
    | null_dereference => simp at hr

theorem close_sound (env : Env B) : Sound (CamUsb.close env) := by
  intro s hs
  unfold CamUsb.close
  simp
  split
  · have hs1 : Inv { s with mIsOpen := false } := hs
    refine Op.wp_mono _ _ _ _ (changeCameraMode_spec env _ _ (by decide) _ hs1) ?_
    rintro r s1 ⟨h1, hr, -⟩
    cases r with
    | ret a => simp [h1]
    | raised e => simp [h1]
    | null_dereference => simp at hr
  · simp [hs]

theorem grab_sound (env : Env B) (created : Outcome B) (now : Nat) (mode : GrabMode)
    (buffer_len : Int) : Sound (CamUsb.grab env created now mode buffer_len) := by
  intro s hs
  unfold CamUsb.grab
  simp
  split
  · exact hs
  · cases mode with
    | Stop =>
      simp
      split
      · rename_i hmode
        obtain ⟨b, hb⟩ := Option.isSome_iff_exists.mp (hs.1.mpr hmode)
        simp [hb, Op.after_toResult]
        have hs1 : Inv { s with mCamConfig := some (env.cleanupRequesting b).2 } := by
          unfold Inv BackendLive MapReady NotGrabbing at *
          simpa [hb] using hs
        split
        · refine Op.wp_mono _ _ _ _ (changeCameraMode_spec env created _ (by decide) _ hs1) ?_
          rintro r s1 ⟨h1, hr, -⟩
          cases r with
          | ret a =>
            unfold Inv BackendLive MapReady NotGrabbing at *
            simpa using And.intro h1.1 h1.2.1
          | raised e => simp [h1]
          | null_dereference => simp at hr
        · simpa using hs1
      · refine Op.wp_mono _ _ _ _ (changeCameraMode_spec env created _ (by decide) _ hs) ?_
        rintro r s1 ⟨h1, hr, -⟩
        cases r with
        | ret a =>
          unfold Inv BackendLive MapReady NotGrabbing at *
          simpa using And.intro h1.1 h1.2.1
        | raised e => simp [h1]
        | null_dereference => simp at hr
    | SingleFrame =>
      simp
      refine Op.wp_mono _ _ _ s (changeCameraMode_spec env created _ (by decide) s hs) ?_
      rintro r s1 ⟨h1, hr, hm⟩
      cases r with
      | ret a =>
        have hm1 := hm rfl
        obtain ⟨b, hb⟩ := Option.isSome_iff_exists.mp (h1.1.mpr hm1)
        unfold Inv BackendLive MapReady NotGrabbing at *
        simp [Op.after_toResult, hb]
        repeat' (split <;> try simp_all [Op.after_toResult])
      | raised e => simp [h1]
      | null_dereference => simp at hr
    | MultiFrame => simp [hs]
    | Continuously => simp [hs]
    | unlisted code => simp [hs]

theorem fastInit_sound (env : Env B) (created : Outcome B) (width height : Int) :
    Sound (CamUsb.fastInit env created width height) := by
  intro s hs
  unfold CamUsb.fastInit
  simp
  refine Op.wp_mono _ _ _ _ (open_sound env created _ _ s hs) ?_
  rintro r s1 ⟨h1, hr⟩
  cases r with
  | ret a =>
    simp
    refine Op.wp_mono _ _ _ _ ((setFrameSettings_quiet env _ _ _ _).sound s1 h1) ?_
    rintro r2 s2 ⟨h2, hr2⟩
    cases r2 with
    | ret a2 => simp [h2]
    | raised e => simp [h2]
    | null_dereference => simp at hr2
  | raised e => simp [h1]
  | null_dereference => simp at hr

theorem retrieveFrame_sound (env : Env B) (now : Nat) (frame : Frame) (timeout : Int)
    (s : CamUsb B) (hs : Inv s) :
    Inv (CamUsb.retrieveFrame env now frame timeout s).2.1 ∧
      (CamUsb.retrieveFrame env now frame timeout s).1 ≠ Result.null_dereference := by
  unfold CamUsb.retrieveFrame
  by_cases hnone : s.mCamMode = CAM_USB_MODE.CAM_USB_NONE
  · simp [hnone, hs]
  · by_cases hv : s.mCamMode = CAM_USB_MODE.CAM_USB_V4L2
    · obtain ⟨b, hb⟩ := Option.isSome_iff_exists.mp (hs.1.mpr hv)
      unfold Inv BackendLive MapReady NotGrabbing at *
      rcases hg : (env.getBuffer b [] true timeout).1 with buf | e
      · simp [hv, deref, hb, hg, Outcome.toResult]
        repeat' (split <;> try simp_all)
      · cases e <;> simp [hv, deref, hb, hg, Outcome.toResult, hs]
    · unfold Inv BackendLive MapReady NotGrabbing at *
      simp [hv, hnone]
      repeat' (split <;> try simp_all)

theorem getRange_sound (env : Env B) (attrib : int_attrib.CamAttrib) (imin imax : Int)
    (s : CamUsb B) (hs : Inv s) :
    Inv (CamUsb.getRange env attrib imin imax s).2.1 ∧
      (CamUsb.getRange env attrib imin imax s).1 ≠ Result.null_dereference := by
  unfold CamUsb.getRange
  by_cases hv : s.mCamMode = CAM_USB_MODE.CAM_USB_V4L2
  · obtain ⟨b, hb⟩ := Option.isSome_iff_exists.mp (hs.1.mpr hv)
    unfold Inv BackendLive MapReady NotGrabbing at *
    cases hf : mapFind s.mMapAttrsCtrlsInt attrib with
    | none => simp [hv, hs]
    | some id =>
      rcases hmin : (env.getControlMinimum b id).1 with rmin | e
      · rcases hmax : (env.getControlMaximum (env.getControlMinimum b id).2 id).1 with rmax | e2
        · simp [hv, deref, hb, hmin, hmax, Outcome.toResult, hs]
        · simp [hv, deref, hb, hmin, hmax, Outcome.toResult, hs]
      · simp [hv, deref, hb, hmin, Outcome.toResult, hs]
  · simp [hv, hs]

theorem Sound.run {α : Type} {m : Op (CamUsb B) α} (h : Sound m) (s : CamUsb B) (hs : Inv s) :
    Inv (m.run s).2 ∧ (m.run s).1 ≠ Ending.null_dereference := by
  obtain ⟨h1, h2⟩ := h s hs
  refine ⟨h1, ?_⟩
  unfold Op.run
  cases hr : (m s).1 with
  | ret a => simp [Result.ending]
  | raised e => simp [Result.ending]
  | null_dereference => exact absurd hr h2

theorem pure_sound {α : Type} (a : α) : Sound (pure a : Op (CamUsb B) α) := by
  intro s hs
  simp [hs]

theorem exec_sound (env : Env B) (c : Call B) (s : CamUsb B) (hs : Inv s) :
    Inv (exec env c s).2 ∧ (exec env c s).1 ≠ Ending.null_dereference := by
  cases c with
  | openCamera created cam mode => exact (open_sound env created cam mode).run s hs
  | close => exact (close_sound env).run s hs
  | grab created now mode buffer_len => exact (grab_sound env created now mode buffer_len).run s hs
  | retrieveFrame now frame timeout =>
    obtain ⟨h1, h2⟩ := retrieveFrame_sound env now frame timeout s hs
    refine ⟨h1, ?_⟩
    show (CamUsb.retrieveFrame env now frame timeout s).1.ending ≠ Ending.null_dereference
    cases hr : (CamUsb.retrieveFrame env now frame timeout s).1 with
    | ret a => simp [Result.ending]
    | raised e => simp [Result.ending]
    | null_dereference => exact absurd hr h2
  | isFrameAvailable => exact (pure_sound true).run s hs
  | skipFrames => exact (pure_sound (1 : Int)).run s hs
  | setIpSettings cam =>
    refine Sound.run ?_ s hs
    intro s1 hs1
    simp [CamUsb.setIpSettings, hs1]
  | setAttrib_int attrib value => exact (setAttrib_int_quiet env attrib value).sound.run s hs
  | setAttrib_double attrib value => exact (setAttrib_double_quiet env attrib value).sound.run s hs
  | setAttrib_enum attrib => exact (setAttrib_enum_quiet env attrib).sound.run s hs
  | isAttribAvail_int attrib => exact (isAttribAvail_int_quiet env attrib).sound.run s hs
  | isAttribAvail_double attrib => exact (isAttribAvail_double_quiet env attrib).sound.run s hs
  | isAttribAvail_enum attrib => exact (isAttribAvail_enum_quiet env attrib).sound.run s hs
  | getAttrib_int attrib => exact (getAttrib_int_quiet env attrib).sound.run s hs
  | getAttrib_double now attrib => exact (getAttrib_double_quiet env now attrib).sound.run s hs
  | isAttribSet attrib => exact (isAttribSet_quiet env attrib).sound.run s hs
  | isV4L2AttribAvail control_id name =>
    exact (isV4L2AttribAvail_quiet env control_id name).sound.run s hs
  | getV4L2Attrib control_id => exact (getV4L2Attrib_quiet env control_id).sound.run s hs
  | setV4L2Attrib control_id value => exact (setV4L2Attrib_quiet env control_id value).sound.run s hs
  | setFrameSettings size mode color_depth resize_frames =>
    exact (setFrameSettings_quiet env size mode color_depth resize_frames).sound.run s hs
  | getFrameSettings =>
    refine Sound.run ?_ s hs
    intro s1 hs1
    simp [CamUsb.getFrameSettings, hs1]
  | triggerFrame => exact (pure_sound true).run s hs
  | setToDefault => exact (setToDefault_quiet env).sound.run s hs
  | printCameraInformations => exact (printCameraInformations_quiet env).sound.run s hs
  | getRange attrib imin imax =>
    obtain ⟨h1, h2⟩ := getRange_sound env attrib imin imax s hs
    refine ⟨h1, ?_⟩
    show (CamUsb.getRange env attrib imin imax s).1.ending ≠ Ending.null_dereference
    cases hr : (CamUsb.getRange env attrib imin imax s).1 with
    | ret a => simp [Result.ending]
    | raised e => simp [Result.ending]
    | null_dereference => exact absurd hr h2
  | fastInit created width height => exact (fastInit_sound env created width height).run s hs

theorem new_inv (env : Env B) (device : String) (indeterminate : CAM_USB_MODE) :
    Inv (CamUsb.new env device indeterminate) := by
  unfold CamUsb.new CamUsb.changeCameraMode Inv BackendLive MapReady NotGrabbing
  cases indeterminate <;> simp [Op.andThen]

theorem reachable_inv (env : Env B) (s : CamUsb B) (h : Reachable env s) : Inv s := by
  induction h with
  | fresh device indeterminate => exact new_inv env device indeterminate
  | step c _ ih => exact (exec_sound env c _ ih).1

/-- The freshly constructed controller: mode `CAM_USB_NONE`, null backend, not
open, grab mode `Stop`, empty attribute map, whatever the uninitialised
`mCamMode` held. -/
theorem new_fields (env : Env B) (device : String) (indeterminate : CAM_USB_MODE) :
    (CamUsb.new env device indeterminate).mCamMode = CAM_USB_MODE.CAM_USB_NONE ∧
      (CamUsb.new env device indeterminate).mCamConfig = none ∧
      (CamUsb.new env device indeterminate).mIsOpen = false ∧
      (CamUsb.new env device indeterminate).act_grab_mode_ = GrabMode.Stop ∧
      (CamUsb.new env device indeterminate).mMapAttrsCtrlsInt = [] := by
  unfold CamUsb.new CamUsb.changeCameraMode
  cases indeterminate <;> simp [Op.andThen]

/-- In every reachable state the guard of `grab` against switching the grab
mode is not entered: `act_grab_mode_` is `Stop`, so `grab(MultiFrame)` returns
true and changes nothing. -/
theorem grab_guard_never_fires (env : Env B) (s : CamUsb B) (h : Reachable env s)
    (created : Outcome B) (now : Nat) (n : Int) :
    s.act_grab_mode_ = GrabMode.Stop ∧
      CamUsb.grab env created now GrabMode.MultiFrame n s = (Result.ret true, s) := by
  have hstop : s.act_grab_mode_ = GrabMode.Stop := (reachable_inv env s h).2.2
  exact ⟨hstop, by simp [CamUsb.grab, Op.andThen, hstop]⟩

theorem open_returns_open (env : Env B) (created : Outcome B) (cam : CamInfo) (mode : AccessMode)
    (s : CamUsb B) :
    Op.wp (CamUsb.open env created cam mode)
      (fun r s1 => ∀ b : Bool, r = Result.ret b → b = true ∧ s1.mIsOpen = true) s := by
  unfold CamUsb.open
  simp
  intro _
  refine Op.wp_of_forall _ _ _ ?_
  intro r s1
  cases r with
  | ret a =>
    cases hc : s1.mCamConfig with
    | none => simp [hc]
    | some b =>
      simp [hc, Op.after_toResult]
      split <;> simp
  | raised e => simp
  | null_dereference => simp

/-! ## The claims -/

/-- C1: in every state reachable from the freshly constructed controller by
public calls, `mCamConfig` is non-null if and only if `mCamMode` is
`CAM_USB_V4L2`, and no public call made in such a state dereferences a null
backend. -/
theorem C1_backend_live_iff_v4l2 (env : Env B) (s : CamUsb B) (h : Reachable env s) :
    (s.mCamConfig ≠ none ↔ s.mCamMode = CAM_USB_MODE.CAM_USB_V4L2) ∧
      ∀ c : Call B, (exec env c s).1 ≠ Ending.null_dereference := by
  have hinv := reachable_inv env s h
  refine ⟨?_, fun c => (exec_sound env c s hinv).2⟩
  rw [ne_eq, ← Option.not_isSome_iff_eq_none, not_not]
  exact hinv.1

/-- C1, at the controller that was opened on the idle backend. -/
theorem C1_backend_live_iff_v4l2_witness :
    Reachable (idleEnv 640 480) openedCam ∧ openedCam.mCamConfig = some () ∧
      openedCam.mCamMode = CAM_USB_MODE.CAM_USB_V4L2 ∧
      ((openedCam.mCamConfig ≠ none ↔ openedCam.mCamMode = CAM_USB_MODE.CAM_USB_V4L2) ∧
        ∀ c : Call Unit, (exec (idleEnv 640 480) c openedCam).1 ≠ Ending.null_dereference) :=
  ⟨Reachable.step _ (Reachable.fresh _ _), rfl, rfl,
    C1_backend_live_iff_v4l2 (idleEnv 640 480) openedCam
      (Reachable.step _ (Reachable.fresh _ _))⟩

/-- C2, refuted as stated: after `open()` followed by `close()` the camera mode
is `CAM_USB_NONE` and the attribute map still holds its seven entries. -/
theorem C2_map_survives_close :
    Reachable (idleEnv 640 480) reclosedCam ∧
      reclosedCam.mCamMode = CAM_USB_MODE.CAM_USB_NONE ∧
      reclosedCam.mMapAttrsCtrlsInt.length = 7 ∧
      ¬(reclosedCam.mMapAttrsCtrlsInt ≠ [] ↔
        reclosedCam.mCamMode = CAM_USB_MODE.CAM_USB_V4L2) :=
  ⟨Reachable.step _ (Reachable.step _ (Reachable.fresh _ _)), by decide, by decide, by decide⟩

/-- C2, amended: in every reachable state in which the camera mode is
`CAM_USB_V4L2` the attribute map is non-empty (the converse fails: the map is
cleared only when a backend is created, never on leaving the mode). -/
theorem C2_map_nonempty_in_v4l2 (env : Env B) (s : CamUsb B) (h : Reachable env s)
    (hmode : s.mCamMode = CAM_USB_MODE.CAM_USB_V4L2) : s.mMapAttrsCtrlsInt ≠ [] :=
  (reachable_inv env s h).2.1 hmode

/-- C2 amended, at the controller that was opened on the idle backend. -/
theorem C2_map_nonempty_in_v4l2_witness :
    Reachable (idleEnv 640 480) openedCam ∧
      openedCam.mCamMode = CAM_USB_MODE.CAM_USB_V4L2 ∧ openedCam.mMapAttrsCtrlsInt ≠ [] :=
  ⟨Reachable.step _ (Reachable.fresh _ _), rfl,
    C2_map_nonempty_in_v4l2 (idleEnv 640 480) openedCam
      (Reachable.step _ (Reachable.fresh _ _)) rfl⟩

/-- C3: on every controller whose open flag is set, `open()` returns true and
leaves the whole object unchanged, for every `CamInfo`; hence whenever a first
`open()` returns, it returned true and a second `open()` returns true and
changes nothing. -/
theorem C3_open_is_idempotent (env : Env B) (created created2 : Outcome B) (cam cam2 : CamInfo)
    (mode mode2 : AccessMode) (s : CamUsb B) :
    (s.mIsOpen = true → CamUsb.open env created cam mode s = (Result.ret true, s)) ∧
      (∀ r : Bool, (CamUsb.open env created cam mode s).1 = Result.ret r →
        r = true ∧
          CamUsb.open env created2 cam2 mode2 (CamUsb.open env created cam mode s).2 =
            (Result.ret true, (CamUsb.open env created cam mode s).2)) := by
  have hopen : ∀ (c : Outcome B) (i : CamInfo) (m : AccessMode) (s1 : CamUsb B),
      s1.mIsOpen = true → CamUsb.open env c i m s1 = (Result.ret true, s1) := by
    intro c i m s1 h1
    simp [CamUsb.open, Op.andThen, h1]
  refine ⟨hopen created cam mode s, ?_⟩
  intro r hr
  by_cases hs : s.mIsOpen = true
  · rw [hopen created cam mode s hs] at hr ⊢
    simp at hr
    exact ⟨hr, hopen created2 cam2 mode2 s hs⟩
  · obtain ⟨h1, h2⟩ := open_returns_open env created cam mode s r hr
    exact ⟨h1, hopen created2 cam2 mode2 _ h2⟩

/-- C3, on the idle backend: `open()` on the open controller changes nothing,
and the first `open()` on a fresh controller returns true and so does the second. -/
theorem C3_open_is_idempotent_witness :
    openedCam.mIsOpen = true ∧
      CamUsb.open (idleEnv 640 480) (Outcome.ret ()) demoInfo AccessMode.Master openedCam =
        (Result.ret true, openedCam) ∧
      (CamUsb.open (idleEnv 640 480) (Outcome.ret ()) demoInfo AccessMode.Master freshCam).1 =
        Result.ret true ∧
      CamUsb.open (idleEnv 640 480) (Outcome.ret ()) demoInfo AccessMode.Master
          (CamUsb.open (idleEnv 640 480) (Outcome.ret ()) demoInfo AccessMode.Master freshCam).2 =
        (Result.ret true,
          (CamUsb.open (idleEnv 640 480) (Outcome.ret ()) demoInfo AccessMode.Master freshCam).2) :=
  ⟨rfl,
    (C3_open_is_idempotent (idleEnv 640 480) (Outcome.ret ()) (Outcome.ret ()) demoInfo demoInfo
      AccessMode.Master AccessMode.Master openedCam).1 rfl,
    rfl,
    ((C3_open_is_idempotent (idleEnv 640 480) (Outcome.ret ()) (Outcome.ret ()) demoInfo demoInfo
      AccessMode.Master AccessMode.Master freshCam).2 true rfl).2⟩

/-- C4, the code at the failing input: on a fresh controller (grab mode `Stop`)
`grab(SingleFrame)` returns true and leaves `act_grab_mode_` at `Stop`, so the
following `grab(MultiFrame)` passes the guard and returns true instead of
throwing "Stop grabbing before switching the grab mode!". -/
theorem C4_switch_after_single_frame_returns_true :
    freshCam.act_grab_mode_ = GrabMode.Stop ∧
      (CamUsb.grab (idleEnv 640 480) (Outcome.ret ()) 1 GrabMode.SingleFrame 1 freshCam).1 =
        Result.ret true ∧
      singleGrabbedCam.act_grab_mode_ = GrabMode.Stop ∧
      (CamUsb.grab (idleEnv 640 480) (Outcome.ret ()) 2 GrabMode.MultiFrame 1 singleGrabbedCam).1 =
        Result.ret true := by
  decide

/-- C5, refuted as stated: on a fresh controller (grab mode `Stop`)
`grab(MultiFrame, 1)` and `grab(Continuously, 1)` return true. -/
theorem C5_pipeline_modes_return_true :
    freshCam.act_grab_mode_ = GrabMode.Stop ∧
      (CamUsb.grab (idleEnv 640 480) (Outcome.ret ()) 1 GrabMode.MultiFrame 1 freshCam).1 =
        Result.ret true ∧
      (CamUsb.grab (idleEnv 640 480) (Outcome.ret ()) 1 GrabMode.Continuously 1 freshCam).1 =
        Result.ret true := by
  decide

/-- C5, amended: on every controller whose active grab mode is `Stop`,
`grab(MultiFrame, n)` and `grab(Continuously, n)` return true for every buffer
length and leave the object unchanged; the error "The grab mode is not
supported by the camera!" is raised only for a grab mode outside the four
enumerators, and then the object is unchanged as well. -/
theorem C5_pipeline_modes_are_noops (env : Env B) (created : Outcome B) (now : Nat) (n : Int)
    (code : Nat) (s : CamUsb B) (h : s.act_grab_mode_ = GrabMode.Stop) :
    CamUsb.grab env created now GrabMode.MultiFrame n s = (Result.ret true, s) ∧
      CamUsb.grab env created now GrabMode.Continuously n s = (Result.ret true, s) ∧
      CamUsb.grab env created now (GrabMode.unlisted code) n s =
        (Result.raised (Exn.runtime_error "The grab mode is not supported by the camera!"), s) := by
  simp [CamUsb.grab, Op.andThen, h]

/-- C5 amended, on the fresh controller of the idle backend. -/
theorem C5_pipeline_modes_are_noops_witness :
    freshCam.act_grab_mode_ = GrabMode.Stop ∧
      CamUsb.grab (idleEnv 640 480) (Outcome.ret ()) 1 GrabMode.MultiFrame 8 freshCam =
        (Result.ret true, freshCam) ∧
      CamUsb.grab (idleEnv 640 480) (Outcome.ret ()) 1 GrabMode.Continuously 8 freshCam =
        (Result.ret true, freshCam) ∧
      CamUsb.grab (idleEnv 640 480) (Outcome.ret ()) 1 (GrabMode.unlisted 9) 8 freshCam =
        (Result.raised (Exn.runtime_error "The grab mode is not supported by the camera!"),
          freshCam) :=
  ⟨rfl, C5_pipeline_modes_are_noops (idleEnv 640 480) (Outcome.ret ()) 1 8 9 freshCam rfl⟩

/-- C6: on every controller in mode `CAM_USB_NONE`, for every frame and
timeout, `retrieveFrame` returns false and leaves both the caller's frame and
the whole object (the received-frame counter and the backend handle included)
unchanged. -/
theorem C6_retrieveFrame_in_mode_none (env : Env B) (now : Nat) (frame : Frame) (timeout : Int)
    (s : CamUsb B) (h : s.mCamMode = CAM_USB_MODE.CAM_USB_NONE) :
    CamUsb.retrieveFrame env now frame timeout s = (Result.ret false, s, frame) := by
  simp [CamUsb.retrieveFrame, h]

/-- C6, on the fresh controller of the idle backend. -/
theorem C6_retrieveFrame_in_mode_none_witness :
    freshCam.mCamMode = CAM_USB_MODE.CAM_USB_NONE ∧
      CamUsb.retrieveFrame (idleEnv 640 480) 5 blankFrame 100 freshCam =
        (Result.ret false, freshCam, blankFrame) :=
  ⟨rfl, C6_retrieveFrame_in_mode_none (idleEnv 640 480) 5 blankFrame 100 freshCam rfl⟩

/-- C7, refuted as stated: on a fresh controller (mode `CAM_USB_NONE`, empty
attribute map) `setAttrib` on the unmapped integer attribute `BrightnessValue`
and on an enumerated value outside the supported set return false; no
exception is raised. -/
theorem C7_unknown_attribute_returns_false_in_mode_none :
    freshCam.mCamMode = CAM_USB_MODE.CAM_USB_NONE ∧
      mapFind freshCam.mMapAttrsCtrlsInt int_attrib.CamAttrib.BrightnessValue = none ∧
      CamUsb.setAttrib_int (idleEnv 640 480) int_attrib.CamAttrib.BrightnessValue 1 freshCam =
        (Result.ret false, freshCam) ∧
      CamUsb.setAttrib_enum (idleEnv 640 480) (enum_attrib.CamAttrib.unlisted 0) freshCam =
        (Result.ret false, freshCam) :=
  ⟨rfl, rfl, rfl, rfl⟩

/-- C7, amended: in mode `CAM_USB_V4L2`, `setAttrib` on an integer attribute
that is not a key of the attribute map, and on an enumerated value outside the
supported set, throws the `std::runtime_error` "Unknown attribute!" and leaves
the object unchanged; in every other mode both setters return false and leave
the object unchanged. -/
theorem C7_unknown_attribute (env : Env B) (attrib : int_attrib.CamAttrib) (value : Int)
    (code : Nat) (s : CamUsb B) (hkey : mapFind s.mMapAttrsCtrlsInt attrib = none) :
    (s.mCamMode = CAM_USB_MODE.CAM_USB_V4L2 →
        CamUsb.setAttrib_int env attrib value s =
            (Result.raised (Exn.runtime_error "Unknown attribute!"), s) ∧
          CamUsb.setAttrib_enum env (enum_attrib.CamAttrib.unlisted code) s =
            (Result.raised (Exn.runtime_error "Unknown attribute!"), s)) ∧
      (s.mCamMode ≠ CAM_USB_MODE.CAM_USB_V4L2 →
        CamUsb.setAttrib_int env attrib value s = (Result.ret false, s) ∧
          CamUsb.setAttrib_enum env (enum_attrib.CamAttrib.unlisted code) s =
            (Result.ret false, s)) := by
  constructor
  · intro hmode
    simp [CamUsb.setAttrib_int, CamUsb.setAttrib_enum, Op.andThen, hmode, hkey, unknownAttribute]
  · intro hmode
    simp [CamUsb.setAttrib_int, CamUsb.setAttrib_enum, Op.andThen, hmode]

/-- C7 amended, on the idle backend: the opened controller (mode
`CAM_USB_V4L2`) and the fresh one (mode `CAM_USB_NONE`). -/
theorem C7_unknown_attribute_witness :
    (CamUsb.setAttrib_int (idleEnv 640 480) (int_attrib.CamAttrib.unlisted 3) 1 openedCam =
          (Result.raised (Exn.runtime_error "Unknown attribute!"), openedCam) ∧
        CamUsb.setAttrib_enum (idleEnv 640 480) (enum_attrib.CamAttrib.unlisted 0) openedCam =
          (Result.raised (Exn.runtime_error "Unknown attribute!"), openedCam)) ∧
      (CamUsb.setAttrib_int (idleEnv 640 480) (int_attrib.CamAttrib.unlisted 3) 1 freshCam =
          (Result.ret false, freshCam) ∧
        CamUsb.setAttrib_enum (idleEnv 640 480) (enum_attrib.CamAttrib.unlisted 0) freshCam =
          (Result.ret false, freshCam)) :=
  ⟨(C7_unknown_attribute (idleEnv 640 480) (int_attrib.CamAttrib.unlisted 3) 1 0 openedCam
      (by decide)).1 (by decide),
    (C7_unknown_attribute (idleEnv 640 480) (int_attrib.CamAttrib.unlisted 3) 1 0 freshCam
      (by decide)).2 (by decide)⟩

/-- C8, the code at the failing input: on the opened controller `BrightnessValue`
is mapped to `V4L2_CID_BRIGHTNESS`, the backend fails to read that control
(`getControlValue` returns false and stores nothing), and `getAttrib` returns 0
all the same, where `getV4L2Attrib` on the same control throws. -/
theorem C8_getAttrib_returns_unreported_zero :
    openedCam.mCamMode = CAM_USB_MODE.CAM_USB_V4L2 ∧
      mapFind openedCam.mMapAttrsCtrlsInt int_attrib.CamAttrib.BrightnessValue =
        some V4L2_CID_BRIGHTNESS ∧
      ((idleEnv 640 480).getControlValue () V4L2_CID_BRIGHTNESS).1 = Outcome.ret (false, none) ∧
      (CamUsb.getAttrib_int (idleEnv 640 480) int_attrib.CamAttrib.BrightnessValue openedCam).1 =
        Result.ret 0 ∧
      (CamUsb.getV4L2Attrib (idleEnv 640 480) V4L2_CID_BRIGHTNESS openedCam).1 =
        Result.raised (Exn.runtime_error "Unkown attribute") := by
  decide

/-- C9, refuted as stated: the backend reports a width of 66176 after format
negotiation; `setFrameSettings` returns true and `getFrameSettings` then
returns the width 640, not 66176. -/
theorem C9_reported_width_is_truncated :
    openedWideCam.mCamMode = CAM_USB_MODE.CAM_USB_V4L2 ∧
      ((idleEnv 66176 480).getImageWidth ()).1 = Outcome.ret (some 66176) ∧
      (CamUsb.setFrameSettings (idleEnv 66176 480) ⟨640, 480⟩ frame_mode_t.MODE_JPEG 3 true
          openedWideCam).1 = Result.ret true ∧
      (CamUsb.getFrameSettings
          (CamUsb.setFrameSettings (idleEnv 66176 480) ⟨640, 480⟩ frame_mode_t.MODE_JPEG 3 true
            openedWideCam).2).1 =
        Result.ret (true, ⟨640, 480⟩, frame_mode_t.MODE_JPEG, 3) := by
  decide

/-- C9, amended: in mode `CAM_USB_V4L2` with a live backend whose four calls
return, `setFrameSettings` returns true and a following `getFrameSettings`
returns the backend-reported width and height reduced modulo 2^16 (so exactly
the reported ones when they fit in 16 bits) together with the requested pixel
mode and colour depth, both when the requested mode is supported (`fmt ≠ 0`)
and when the backend falls back to its default format (`fmt = 0`). -/
theorem C9_frame_settings_round_trip (env : Env B) (s : CamUsb B) (b : B) (size : frame_size_t)
    (mode : frame_mode_t) (color_depth : Nat) (resize_frames : Bool) (fmt w h : Nat)
    (hmode : s.mCamMode = CAM_USB_MODE.CAM_USB_V4L2) (hb : s.mCamConfig = some b)
    (hfmt : (env.toV4L2ImageFormat b mode).1 = Outcome.ret fmt)
    (hwrite : (env.writeImagePixelFormat (env.toV4L2ImageFormat b mode).2 size.width size.height
      (if fmt = 0 then none else some fmt)).1 = Outcome.ret ())
    (hw : (env.getImageWidth (env.writeImagePixelFormat (env.toV4L2ImageFormat b mode).2
      size.width size.height (if fmt = 0 then none else some fmt)).2).1 = Outcome.ret (some w))
    (hh : (env.getImageHeight (env.getImageWidth (env.writeImagePixelFormat
      (env.toV4L2ImageFormat b mode).2 size.width size.height
      (if fmt = 0 then none else some fmt)).2).2).1 = Outcome.ret (some h)) :
    (CamUsb.setFrameSettings env size mode color_depth resize_frames s).1 = Result.ret true ∧
      (CamUsb.getFrameSettings
          (CamUsb.setFrameSettings env size mode color_depth resize_frames s).2).1 =
        Result.ret (true, ⟨w % 65536, h % 65536⟩, mode, color_depth) ∧
      (w < 65536 → h < 65536 →
        (CamUsb.getFrameSettings
            (CamUsb.setFrameSettings env size mode color_depth resize_frames s).2).1 =
          Result.ret (true, ⟨w, h⟩, mode, color_depth)) := by
  have key : (CamUsb.setFrameSettings env size mode color_depth resize_frames s).1 =
        Result.ret true ∧
      (CamUsb.getFrameSettings
          (CamUsb.setFrameSettings env size mode color_depth resize_frames s).2).1 =
        Result.ret (true, ⟨w % 65536, h % 65536⟩, mode, color_depth) := by
    by_cases hz : fmt = 0
    · subst hz
      simp at hwrite hw hh
      simp [CamUsb.setFrameSettings, CamUsb.getFrameSettings, Op.andThen, deref, hmode, hb,
        hfmt, hwrite, hw, hh, Outcome.toResult]
    · simp [hz] at hwrite hw hh
      simp [CamUsb.setFrameSettings, CamUsb.getFrameSettings, Op.andThen, deref, hmode, hb,
        hfmt, hwrite, hw, hh, hz, Outcome.toResult]
  refine ⟨key.1, key.2, ?_⟩
  intro hw1 hh1
  rw [key.2, Nat.mod_eq_of_lt hw1, Nat.mod_eq_of_lt hh1]

/-- C9 amended, on the backend that reports 66176 by 480. -/
theorem C9_frame_settings_round_trip_witness :
    (CamUsb.setFrameSettings (idleEnv 66176 480) ⟨1920, 1080⟩ frame_mode_t.MODE_JPEG 3 true
        openedWideCam).1 = Result.ret true ∧
      (CamUsb.getFrameSettings
          (CamUsb.setFrameSettings (idleEnv 66176 480) ⟨1920, 1080⟩ frame_mode_t.MODE_JPEG 3 true
            openedWideCam).2).1 =
        Result.ret (true, ⟨66176 % 65536, 480 % 65536⟩, frame_mode_t.MODE_JPEG, 3) :=
  ⟨(C9_frame_settings_round_trip (idleEnv 66176 480) openedWideCam () ⟨1920, 1080⟩
      frame_mode_t.MODE_JPEG 3 true 0 66176 480 rfl rfl rfl rfl rfl rfl).1,
    (C9_frame_settings_round_trip (idleEnv 66176 480) openedWideCam () ⟨1920, 1080⟩
      frame_mode_t.MODE_JPEG 3 true 0 66176 480 rfl rfl rfl rfl rfl rfl).2.1⟩

/-- C10: on every reachable controller whose open flag is set, `close()` returns
true and yields mode `CAM_USB_NONE`, a null backend handle and a cleared open
flag; on every controller whose open flag is clear, `close()` returns true and
leaves the whole object unchanged. -/
theorem C10_close (env : Env B) (s : CamUsb B) (h : Reachable env s) :
    (s.mIsOpen = true →
        (CamUsb.close env s).1 = Result.ret true ∧
          (CamUsb.close env s).2.mCamMode = CAM_USB_MODE.CAM_USB_NONE ∧
          (CamUsb.close env s).2.mCamConfig = none ∧
          (CamUsb.close env s).2.mIsOpen = false) ∧
      (s.mIsOpen = false → CamUsb.close env s = (Result.ret true, s)) := by
  have hlive := (reachable_inv env s h).1
  unfold BackendLive at hlive
  constructor
  · intro hopen
    by_cases hnone : s.mCamMode = CAM_USB_MODE.CAM_USB_NONE
    · have hcfg : s.mCamConfig = none := by
        cases hc : s.mCamConfig with
        | none => rfl
        | some b =>
          rw [hc, hnone] at hlive
          simp at hlive
      simp [CamUsb.close, CamUsb.changeCameraMode, Op.andThen, hopen, hnone, hcfg]
    · have hne : ¬(CAM_USB_MODE.CAM_USB_NONE = s.mCamMode) := fun e => hnone e.symm
      cases hc : s.mCamConfig <;>
        simp [CamUsb.close, CamUsb.changeCameraMode, Op.andThen, hopen, hne, hc]
  · intro hclosed
    simp [CamUsb.close, Op.andThen, hclosed]

/-- C10, on the idle backend: the opened controller and the fresh one. -/
theorem C10_close_witness :
    ((CamUsb.close (idleEnv 640 480) openedCam).1 = Result.ret true ∧
        (CamUsb.close (idleEnv 640 480) openedCam).2.mCamMode = CAM_USB_MODE.CAM_USB_NONE ∧
        (CamUsb.close (idleEnv 640 480) openedCam).2.mCamConfig = none ∧
        (CamUsb.close (idleEnv 640 480) openedCam).2.mIsOpen = false) ∧
      CamUsb.close (idleEnv 640 480) freshCam = (Result.ret true, freshCam) :=
  ⟨(C10_close (idleEnv 640 480) openedCam (Reachable.step _ (Reachable.fresh _ _))).1 rfl,
    (C10_close (idleEnv 640 480) freshCam (Reachable.fresh _ _)).2 rfl⟩

/-- C11: `getRange` raises no error and leaves `imin`, `imax` and the object
unchanged whenever the mode is not `CAM_USB_V4L2` or the attribute is not a key
of the attribute map; on a reachable controller in mode `CAM_USB_V4L2` with the
attribute mapped to `id`, the backend is live and `getRange` sets `imin` and
`imax` to the minimum and maximum the backend reports for `id`. -/
theorem C11_getRange (env : Env B) (attrib : int_attrib.CamAttrib) (imin imax : Int)
    (s : CamUsb B) (h : Reachable env s) :
    ((s.mCamMode ≠ CAM_USB_MODE.CAM_USB_V4L2 ∨ mapFind s.mMapAttrsCtrlsInt attrib = none) →
        CamUsb.getRange env attrib imin imax s = (Result.ret (), s, imin, imax)) ∧
      (s.mCamMode = CAM_USB_MODE.CAM_USB_V4L2 →
        ∀ id : Nat, mapFind s.mMapAttrsCtrlsInt attrib = some id →
          ∃ b : B, s.mCamConfig = some b ∧
            ∀ lo hi : Int,
              (env.getControlMinimum b id).1 = Outcome.ret (some lo) →
              (env.getControlMaximum (env.getControlMinimum b id).2 id).1 =
                  Outcome.ret (some hi) →
                CamUsb.getRange env attrib imin imax s =
                  (Result.ret (),
                    { s with mCamConfig := some (env.getControlMaximum (env.getControlMinimum b id).2 id).2 },
                    lo, hi)) := by
  constructor
  · rintro (hmode | hkey)
    · simp [CamUsb.getRange, hmode]
    · by_cases hmode : s.mCamMode = CAM_USB_MODE.CAM_USB_V4L2
      · simp [CamUsb.getRange, hmode, hkey]
      · simp [CamUsb.getRange, hmode]
  · intro hmode id hkey
    obtain ⟨b, hb⟩ := Option.isSome_iff_exists.mp ((reachable_inv env s h).1.mpr hmode)
    refine ⟨b, hb, ?_⟩
    intro lo hi hlo hhi
    simp [CamUsb.getRange, hmode, hkey, deref, hb, hlo, hhi, Outcome.toResult]

/-- C11, on the backend that reports the range -64 .. 64: the fresh controller
(mode `CAM_USB_NONE`) and the opened one (`BrightnessValue` is mapped). -/
theorem C11_getRange_witness :
    CamUsb.getRange rangeEnv int_attrib.CamAttrib.BrightnessValue 7 9
        (CamUsb.new rangeEnv "/dev/video0" CAM_USB_MODE.CAM_USB_GST) =
      (Result.ret (), CamUsb.new rangeEnv "/dev/video0" CAM_USB_MODE.CAM_USB_GST, 7, 9) ∧
    openedRangeCam.mCamMode = CAM_USB_MODE.CAM_USB_V4L2 ∧
    mapFind openedRangeCam.mMapAttrsCtrlsInt int_attrib.CamAttrib.BrightnessValue =
      some V4L2_CID_BRIGHTNESS ∧
    CamUsb.getRange rangeEnv int_attrib.CamAttrib.BrightnessValue 7 9 openedRangeCam =
      (Result.ret (), openedRangeCam, -64, 64) := by
  refine ⟨(C11_getRange rangeEnv int_attrib.CamAttrib.BrightnessValue 7 9 _
      (Reachable.fresh _ _)).1 (Or.inl (by decide)), rfl, rfl, ?_⟩
  obtain ⟨b, -, hr⟩ := (C11_getRange rangeEnv int_attrib.CamAttrib.BrightnessValue 7 9
    openedRangeCam (Reachable.step _ (Reachable.fresh _ _))).2 rfl V4L2_CID_BRIGHTNESS rfl
  exact hr (-64) 64 rfl rfl

/-- C14: on every vector (of fewer than 2^32 entries, the range of the loop
index): if some entry has `unique_id` equal to `CAM_ID`, `listCameras` returns 0
and leaves the vector unchanged; otherwise it returns 1 and appends exactly one
entry (`CAM_ID`, the controller's device path, `InterfaceUSB`, not reachable)
after the existing entries; hence a second call returns 0 and changes nothing
more. -/
theorem C14_listCameras (env : Env B) (s : CamUsb B) (cam_infos : List CamInfo)
    (_hlen : cam_infos.length < 4294967296) :
    ((∃ c ∈ cam_infos, c.unique_id = env.CAM_ID) →
        CamUsb.listCameras env s cam_infos = (0, cam_infos)) ∧
      ((¬∃ c ∈ cam_infos, c.unique_id = env.CAM_ID) →
        CamUsb.listCameras env s cam_infos =
          (1, cam_infos ++ [⟨env.CAM_ID, s.mDevice, InterfaceType.InterfaceUSB, false, ""⟩])) ∧
      CamUsb.listCameras env s (CamUsb.listCameras env s cam_infos).2 =
        (0, (CamUsb.listCameras env s cam_infos).2) := by
  have hany : ∀ l : List CamInfo,
      (l.any (fun c => decide (c.unique_id = env.CAM_ID)) = true) ↔
        ∃ c ∈ l, c.unique_id = env.CAM_ID := by
    intro l
    simp [List.any_eq_true]
  have hfound : ∀ l : List CamInfo, (∃ c ∈ l, c.unique_id = env.CAM_ID) →
      CamUsb.listCameras env s l = (0, l) := by
    intro l hl
    unfold CamUsb.listCameras
    rw [if_pos ((hany l).mpr hl)]
  have hmissing : (¬∃ c ∈ cam_infos, c.unique_id = env.CAM_ID) →
      CamUsb.listCameras env s cam_infos =
        (1, cam_infos ++ [⟨env.CAM_ID, s.mDevice, InterfaceType.InterfaceUSB, false, ""⟩]) := by
    intro hl
    unfold CamUsb.listCameras
    rw [if_neg (fun hc => hl ((hany cam_infos).mp hc))]
  refine ⟨hfound cam_infos, hmissing, ?_⟩
  by_cases hl : ∃ c ∈ cam_infos, c.unique_id = env.CAM_ID
  · rw [hfound cam_infos hl]
    exact hfound cam_infos hl
  · rw [hmissing hl]
    exact hfound _ ⟨_, List.mem_append_right _ (List.mem_singleton_self _), rfl⟩

/-- C14, on the idle backend (`CAM_ID` = 0): the empty vector gets the entry
of the controller, a vector that holds it is left alone, and the second call
on the empty vector's result returns 0. -/
theorem C14_listCameras_witness :
    CamUsb.listCameras (idleEnv 640 480) freshCam [demoInfo] = (0, [demoInfo]) ∧
      CamUsb.listCameras (idleEnv 640 480) freshCam [] = (1, [demoInfo]) ∧
      CamUsb.listCameras (idleEnv 640 480) freshCam
          (CamUsb.listCameras (idleEnv 640 480) freshCam []).2 =
        (0, (CamUsb.listCameras (idleEnv 640 480) freshCam []).2) :=
  ⟨(C14_listCameras (idleEnv 640 480) freshCam [demoInfo] (by decide)).1
      ⟨demoInfo, List.mem_singleton_self _, rfl⟩,
    (C14_listCameras (idleEnv 640 480) freshCam [] (by decide)).2.1 (by simp),
    (C14_listCameras (idleEnv 640 480) freshCam [] (by decide)).2.2⟩

/-- The call `grab(Stop)` on a controller in mode `CAM_USB_V4L2` with a live
backend: the backend runs `cleanupRequesting`, no backend is created, and
only `act_grab_mode_` is assigned. -/
theorem grab_stop_in_v4l2 (env : Env B) (created : Outcome B) (now : Nat) (n : Int)
    (s : CamUsb B) (b : B) (hmode : s.mCamMode = CAM_USB_MODE.CAM_USB_V4L2)
    (hb : s.mCamConfig = some b) :
    CamUsb.grab env created now GrabMode.Stop n s =
      match (env.cleanupRequesting b).1 with
      | Outcome.ret _ =>
        (Result.ret true,
          { s with mCamConfig := some (env.cleanupRequesting b).2, act_grab_mode_ := GrabMode.Stop })
      | Outcome.raised e =>
        (Result.raised e, { s with mCamConfig := some (env.cleanupRequesting b).2 }) := by
  rcases ho : (env.cleanupRequesting b).1 with u | e <;>
    simp [CamUsb.grab, CamUsb.changeCameraMode, Op.andThen, deref, hmode, hb, ho,
      Outcome.toResult]

/-- Whenever `grab(Stop)` returns, it returned true and left the controller in
mode `CAM_USB_V4L2` with a live backend and `act_grab_mode_ = Stop`. -/
theorem grab_stop_returns (env : Env B) (created : Outcome B) (now : Nat) (n : Int)
    (s : CamUsb B) (v : Bool)
    (h : (CamUsb.grab env created now GrabMode.Stop n s).1 = Result.ret v) :
    v = true ∧
      (CamUsb.grab env created now GrabMode.Stop n s).2.mCamMode = CAM_USB_MODE.CAM_USB_V4L2 ∧
      (CamUsb.grab env created now GrabMode.Stop n s).2.act_grab_mode_ = GrabMode.Stop ∧
      ∃ b : B, (CamUsb.grab env created now GrabMode.Stop n s).2.mCamConfig = some b := by
  by_cases hmode : s.mCamMode = CAM_USB_MODE.CAM_USB_V4L2
  · cases hb : s.mCamConfig with
    | none =>
      simp [CamUsb.grab, Op.andThen, deref, hmode, hb] at h
    | some b =>
      rcases ho : (env.cleanupRequesting b).1 with u | e
      · simp [grab_stop_in_v4l2 env created now n s b hmode hb, ho] at h ⊢
        exact ⟨h, hmode⟩
      · simp [grab_stop_in_v4l2 env created now n s b hmode hb, ho] at h
  · have hne : ¬(CAM_USB_MODE.CAM_USB_V4L2 = s.mCamMode) := fun e => hmode e.symm
    rcases created with bnew | e
    · rcases hv : (env.isControlIdValid bnew V4L2_CID_EXPOSURE_ABSOLUTE).1 with valid | e
      · cases hb : s.mCamConfig <;>
          simp [CamUsb.grab, CamUsb.changeCameraMode, CamUsb.createAttrsCtrlMaps, Op.andThen,
            deref, hmode, hne, hb, hv, Outcome.toResult] at h ⊢ <;>
          exact h
      · cases hb : s.mCamConfig <;>
          simp [CamUsb.grab, CamUsb.changeCameraMode, CamUsb.createAttrsCtrlMaps, Op.andThen,
            deref, hmode, hne, hb, hv, Outcome.toResult] at h
    · cases hb : s.mCamConfig <;>
        simp [CamUsb.grab, CamUsb.changeCameraMode, CamUsb.createAttrsCtrlMaps, Op.andThen,
          deref, hmode, hne, hb, Outcome.toResult] at h

theorem stop_again_eq (t : CamUsb B) (x : Option B) (ht : t.act_grab_mode_ = GrabMode.Stop) :
    { t with mCamConfig := x, act_grab_mode_ := GrabMode.Stop } = { t with mCamConfig := x } := by
  cases t
  simp at ht
  simp [ht]

/-- C12, refuted as stated: on a backend whose `cleanupRequesting` throws, the
first `grab(Stop)` on a fresh controller returns true (in mode `CAM_USB_NONE`
the cleanup is skipped) and leaves mode `CAM_USB_V4L2` and grab mode `Stop`;
the second `grab(Stop)` does not return true: it throws the backend's
`std::runtime_error`. -/
theorem C12_second_stop_raises_when_cleanup_throws :
    (CamUsb.grab failingCleanupEnv (Outcome.ret ()) 1 GrabMode.Stop 1
        (CamUsb.new failingCleanupEnv "/dev/video0" CAM_USB_MODE.CAM_USB_GST)).1 =
        Result.ret true ∧
      stoppedOnFailingCleanupCam.mCamMode = CAM_USB_MODE.CAM_USB_V4L2 ∧
      stoppedOnFailingCleanupCam.act_grab_mode_ = GrabMode.Stop ∧
      (CamUsb.grab failingCleanupEnv (Outcome.ret ()) 2 GrabMode.Stop 1
        stoppedOnFailingCleanupCam).1 =
        Result.raised (Exn.runtime_error "VIDIOC_STREAMOFF") := by
  decide

/-- C12, amended: whenever a first `grab(Stop)` returns, it returned true and
left mode `CAM_USB_V4L2`, a live backend and active grab mode `Stop`; a second
`grab(Stop)` then leaves every member as the first call left it, the backend
handle included: it still holds the same backend object, on which only
`cleanupRequesting` has run (the object offered for creation is not used).
The second call returns true when that `cleanupRequesting` returns and throws
the backend's exception when it throws. -/
theorem C12_grab_stop_idempotent (env : Env B) (created created2 : Outcome B) (now now2 : Nat)
    (n n2 : Int) (s : CamUsb B) (v : Bool)
    (h : (CamUsb.grab env created now GrabMode.Stop n s).1 = Result.ret v) :
    v = true ∧
      (CamUsb.grab env created now GrabMode.Stop n s).2.mCamMode = CAM_USB_MODE.CAM_USB_V4L2 ∧
      (CamUsb.grab env created now GrabMode.Stop n s).2.act_grab_mode_ = GrabMode.Stop ∧
      ∃ b : B, (CamUsb.grab env created now GrabMode.Stop n s).2.mCamConfig = some b ∧
        (CamUsb.grab env created2 now2 GrabMode.Stop n2
            (CamUsb.grab env created now GrabMode.Stop n s).2).2 =
          { (CamUsb.grab env created now GrabMode.Stop n s).2 with mCamConfig := some (env.cleanupRequesting b).2 } ∧
        ((env.cleanupRequesting b).1 = Outcome.ret () →
          (CamUsb.grab env created2 now2 GrabMode.Stop n2
            (CamUsb.grab env created now GrabMode.Stop n s).2).1 = Result.ret true) ∧
        (∀ e : Exn, (env.cleanupRequesting b).1 = Outcome.raised e →
          (CamUsb.grab env created2 now2 GrabMode.Stop n2
            (CamUsb.grab env created now GrabMode.Stop n s).2).1 = Result.raised e) := by
  obtain ⟨hv, hm, ha, b, hb⟩ := grab_stop_returns env created now n s v h
  refine ⟨hv, hm, ha, b, hb, ?_, ?_, ?_⟩
  · rw [grab_stop_in_v4l2 env created2 now2 n2 _ b hm hb]
    rcases ho : (env.cleanupRequesting b).1 with u | e
    · exact stop_again_eq _ _ ha
    · rfl
  · intro ho
    rw [grab_stop_in_v4l2 env created2 now2 n2 _ b hm hb, ho]
  · intro e ho
    rw [grab_stop_in_v4l2 env created2 now2 n2 _ b hm hb, ho]

/-- C12 amended, on the idle backend: `grab(Stop)` on the fresh controller
returns true and a second `grab(Stop)` returns true and leaves the object as it
was. -/
theorem C12_grab_stop_idempotent_witness :
    (CamUsb.grab (idleEnv 640 480) (Outcome.ret ()) 1 GrabMode.Stop 1 freshCam).1 =
        Result.ret true ∧
      stoppedCam.mCamMode = CAM_USB_MODE.CAM_USB_V4L2 ∧
      stoppedCam.act_grab_mode_ = GrabMode.Stop ∧
      CamUsb.grab (idleEnv 640 480) (Outcome.ret ()) 2 GrabMode.Stop 1 stoppedCam =
        (Result.ret true, stoppedCam) := by
  obtain ⟨-, hm, ha, b, -, hs, hr, -⟩ := C12_grab_stop_idempotent (idleEnv 640 480)
    (Outcome.ret ()) (Outcome.ret ()) 1 2 1 1 freshCam true rfl
  exact ⟨rfl, hm, ha, Prod.ext (hr rfl) hs⟩

/-- On the store backend the set / is-set round trip of the enumerated
attributes holds whenever the two candidate exposure control ids are not both
valid: the seven attributes outside the exposure pair always round-trip. -/
theorem enum_round_trip_store (attrib : enum_attrib.CamAttrib) (s : CamUsb ControlStore)
    (b : ControlStore) (hmode : s.mCamMode = CAM_USB_MODE.CAM_USB_V4L2)
    (hb : s.mCamConfig = some b)
    (hnot : ¬(V4L2_EXPOSURE_AUTO ∈ b.valid ∧ V4L2_CID_EXPOSURE_AUTO_PRIORITY ∈ b.valid))
    (hset : (CamUsb.setAttrib_enum storeEnv attrib s).1 = Result.ret true) :
    (CamUsb.isAttribSet storeEnv attrib (CamUsb.setAttrib_enum storeEnv attrib s).2).1 =
      Result.ret true := by
  have hne : V4L2_CID_EXPOSURE_AUTO_PRIORITY ≠ V4L2_EXPOSURE_AUTO := by decide
  cases attrib with
  | WhitebalModeToManual =>
    by_cases hv : V4L2_CID_AUTO_WHITE_BALANCE ∈ b.valid <;>
      simp [CamUsb.setAttrib_enum, CamUsb.isAttribSet, Op.andThen, deref, storeEnv, hmode, hb, hv,
        Outcome.toResult, ControlStore.value, List.lookup] at hset ⊢
  | WhitebalModeToAuto =>
    by_cases hv : V4L2_CID_AUTO_WHITE_BALANCE ∈ b.valid <;>
      simp [CamUsb.setAttrib_enum, CamUsb.isAttribSet, Op.andThen, deref, storeEnv, hmode, hb, hv,
        Outcome.toResult, ControlStore.value, List.lookup] at hset ⊢
  | GainModeToManual =>
    by_cases hv : V4L2_CID_AUTOGAIN ∈ b.valid <;>
      simp [CamUsb.setAttrib_enum, CamUsb.isAttribSet, Op.andThen, deref, storeEnv, hmode, hb, hv,
        Outcome.toResult, ControlStore.value, List.lookup] at hset ⊢
  | GainModeToAuto =>
    by_cases hv : V4L2_CID_AUTOGAIN ∈ b.valid <;>
      simp [CamUsb.setAttrib_enum, CamUsb.isAttribSet, Op.andThen, deref, storeEnv, hmode, hb, hv,
        Outcome.toResult, ControlStore.value, List.lookup] at hset ⊢
  | PowerLineFrequencyDisabled =>
    by_cases hv : V4L2_CID_POWER_LINE_FREQUENCY ∈ b.valid <;>
      simp [CamUsb.setAttrib_enum, CamUsb.isAttribSet, Op.andThen, deref, storeEnv, hmode, hb, hv,
        Outcome.toResult, ControlStore.value, List.lookup,
        V4L2_CID_POWER_LINE_FREQUENCY_DISABLED] at hset ⊢
  | PowerLineFrequencyTo50 =>
    by_cases hv : V4L2_CID_POWER_LINE_FREQUENCY ∈ b.valid <;>
      simp [CamUsb.setAttrib_enum, CamUsb.isAttribSet, Op.andThen, deref, storeEnv, hmode, hb, hv,
        Outcome.toResult, ControlStore.value, List.lookup,
        V4L2_CID_POWER_LINE_FREQUENCY_50HZ] at hset ⊢
  | PowerLineFrequencyTo60 =>
    by_cases hv : V4L2_CID_POWER_LINE_FREQUENCY ∈ b.valid <;>
      simp [CamUsb.setAttrib_enum, CamUsb.isAttribSet, Op.andThen, deref, storeEnv, hmode, hb, hv,
        Outcome.toResult, ControlStore.value, List.lookup,
        V4L2_CID_POWER_LINE_FREQUENCY_60HZ] at hset ⊢
  | ExposureModeToAuto =>
    by_cases h0 : V4L2_EXPOSURE_AUTO ∈ b.valid <;>
      by_cases hp : V4L2_CID_EXPOSURE_AUTO_PRIORITY ∈ b.valid <;>
      simp [CamUsb.setAttrib_enum, CamUsb.isAttribSet, Op.andThen, deref, storeEnv, hmode, hb, h0,
        hp, hne, Outcome.toResult, ControlStore.value, List.lookup] at hset hnot ⊢
  | ExposureModeToManual =>
    by_cases h0 : V4L2_EXPOSURE_AUTO ∈ b.valid <;>
      by_cases hp : V4L2_CID_EXPOSURE_AUTO_PRIORITY ∈ b.valid <;>
      simp [CamUsb.setAttrib_enum, CamUsb.isAttribSet, Op.andThen, deref, storeEnv, hmode, hb, h0,
        hp, hne, Outcome.toResult, ControlStore.value, List.lookup] at hset hnot ⊢
  | unlisted code =>
    simp [CamUsb.setAttrib_enum, Op.andThen, hmode, unknownAttribute] at hset

/-- C13, the code at the failing input: on the store backend in which both
`V4L2_EXPOSURE_AUTO` and `V4L2_CID_EXPOSURE_AUTO_PRIORITY` are valid control
ids, `setAttrib(ExposureModeToManual)` returns true (it writes 1 to the control
`V4L2_EXPOSURE_AUTO`), and `isAttribSet(ExposureModeToManual)` right after it
returns false (it reads the control `V4L2_CID_EXPOSURE_AUTO_PRIORITY`). -/
theorem C13_exposure_set_then_isSet_false :
    exposureCam.mCamMode = CAM_USB_MODE.CAM_USB_V4L2 ∧
      (CamUsb.setAttrib_enum storeEnv enum_attrib.CamAttrib.ExposureModeToManual exposureCam).1 =
        Result.ret true ∧
      (CamUsb.isAttribSet storeEnv enum_attrib.CamAttrib.ExposureModeToManual
          (CamUsb.setAttrib_enum storeEnv enum_attrib.CamAttrib.ExposureModeToManual
            exposureCam).2).1 = Result.ret false := by
  decide

end camera
